import Mathlib

/-!
Verification of the CtrlCmd binary codec of edcb.py (client library for the
EpgTimerSrv RPC protocol).  The Python source is shallowly embedded: byte
buffers are lists of naturals (each entry a byte value), the mutable parser
cursor becomes explicit position passing, the internal ReadError exception and
the uncaught UTF-16 decode error become an explicit error type, and Python str
values become lists of Unicode code points.
-/

set_option linter.unusedVariables false

namespace Edcb

/-- Error raised while reading a buffer.  readError models the internal
ReadError exception of the source; decodeError models the UnicodeDecodeError
that Python raises when UTF-16LE decoding fails inside readString. -/
inductive PErr where
  | readError : PErr
  | decodeError : PErr
deriving DecidableEq, Repr

/-- A Python str is modelled as its list of Unicode code points. -/
abbrev PyStr := List Nat

/-- byte at index i of a buffer (buffers are always indexed in bounds when the
size checks of the readers pass). -/
def byteAt (buf : List Nat) (i : Nat) : Nat := buf.getD i 0

/-- little-endian byte list of length w for a natural number. -/
def natToLE : Nat → Nat → List Nat
  | 0, _ => []
  | w + 1, v => v % 256 :: natToLE w (v / 256)

/-- the 4 little-endian bytes of a signed 32-bit integer, as written by
Python int.to_bytes(4, little, signed=True); in-range values are assumed
(out-of-range values raise OverflowError in Python). -/
def intToLE4 (v : Int) : List Nat := natToLE 4 (v % 4294967296).toNat

/-- the 8 little-endian bytes of a signed 64-bit integer. -/
def intToLE8 (v : Int) : List Nat := natToLE 8 (v % 18446744073709551616).toNat

/-- reinterpret an unsigned 32-bit value as signed (two's complement), as
int.from_bytes(..., signed=True) does. -/
def sign32 (u : Nat) : Int :=
  if u < 2147483648 then (u : Int) else (u : Int) - 4294967296

/-- reinterpret an unsigned 64-bit value as signed. -/
def sign64 (u : Nat) : Int :=
  if u < 9223372036854775808 then (u : Int) else (u : Int) - 18446744073709551616

/-! ## UTF-16LE encoding and decoding (Python str.encode and str decode) -/

/-- UTF-16LE bytes of one code point (BMP: two bytes; astral: surrogate
pair, four bytes), as Python encodes a str to utf_16_le. -/
def encChar (c : Nat) : List Nat :=
  if c < 65536 then [c % 256, c / 256 % 256]
  else
    [(55296 + (c - 65536) / 1024) % 256, (55296 + (c - 65536) / 1024) / 256 % 256,
     (56320 + (c - 65536) % 1024) % 256, (56320 + (c - 65536) % 1024) / 256 % 256]

/-- UTF-16LE encoding of a str (list of code points). -/
def encodeUtf16 (s : PyStr) : List Nat := (s.map encChar).flatten

/-- pair up bytes little-endian into 16-bit units; odd byte count is a decode
error (Python: truncated data). -/
def bytesToUnits : List Nat → Option (List Nat)
  | [] => some []
  | [_] => none
  | a :: b :: rest => (bytesToUnits rest).map (fun us => (a + b * 256) :: us)

/-- combine 16-bit units into code points, pairing surrogates; unpaired
surrogates are a decode error, as in Python strict decoding. -/
def unitsToChars : List Nat → Option (List Nat)
  | [] => some []
  | u :: rest =>
    if 55296 ≤ u ∧ u < 56320 then
      match rest with
      | [] => none
      | v :: rest2 =>
        if 56320 ≤ v ∧ v < 57344 then
          (unitsToChars rest2).map (fun s => (65536 + (u - 55296) * 1024 + (v - 56320)) :: s)
        else none
    else if 56320 ≤ u ∧ u < 57344 then none
    else (unitsToChars rest).map (fun s => u :: s)

/-- UTF-16LE decoding, i.e. Python str(bytes, utf_16_le) with strict error
handling; none is a UnicodeDecodeError. -/
def decodeUtf16 (bs : List Nat) : Option PyStr :=
  (bytesToUnits bs).bind unitsToChars

/-- a code point Python can encode to UTF-16 (a Unicode scalar value:
not a surrogate, below 0x110000). -/
def ValidChar (c : Nat) : Prop := c < 55296 ∨ (57344 ≤ c ∧ c < 1114112)

instance (c : Nat) : Decidable (ValidChar c) := by
  unfold ValidChar; infer_instance

/-- every code point of the str is a Unicode scalar value. -/
def ValidStr (s : PyStr) : Prop := ∀ c ∈ s, ValidChar c

instance (s : PyStr) : Decidable (ValidStr s) := by
  unfold ValidStr; infer_instance

/-! ## Wall-clock times (datetime.datetime in the fixed +09:00 zone) -/

/-- a broken-down wall-clock time; the source always carries the fixed
+09:00 zone, which is therefore left implicit. -/
structure DateTime where
  year : Nat
  month : Nat
  day : Nat
  hour : Nat
  minute : Nat
  second : Nat
deriving DecidableEq, Repr

/-- the epoch sentinel: CtrlCmdUtil.UNIX_EPOCH, 1970-01-01 09:00 +09:00. -/
def UNIX_EPOCH : DateTime := ⟨1970, 1, 1, 9, 0, 0⟩

def isLeapYear (y : Nat) : Prop := y % 4 = 0 ∧ (y % 100 ≠ 0 ∨ y % 400 = 0)

instance (y : Nat) : Decidable (isLeapYear y) := by
  unfold isLeapYear; infer_instance

def daysInMonth (y m : Nat) : Nat :=
  if m = 2 then (if isLeapYear y then 29 else 28)
  else if m = 4 ∨ m = 6 ∨ m = 9 ∨ m = 11 then 30
  else 31

/-- the argument ranges accepted by the datetime.datetime constructor. -/
def validDateTime (v : DateTime) : Prop :=
  1 ≤ v.year ∧ v.year ≤ 9999 ∧ 1 ≤ v.month ∧ v.month ≤ 12 ∧
  1 ≤ v.day ∧ v.day ≤ daysInMonth v.year v.month ∧
  v.hour ≤ 23 ∧ v.minute ≤ 59 ∧ v.second ≤ 59

instance (v : DateTime) : Decidable (validDateTime v) := by
  unfold validDateTime; infer_instance

/-- cumulative days before month m in a non-leap year. -/
def daysBeforeMonth (m : Nat) : Nat :=
  if m ≤ 1 then 0 else if m = 2 then 31 else if m = 3 then 59
  else if m = 4 then 90 else if m = 5 then 120 else if m = 6 then 151
  else if m = 7 then 181 else if m = 8 then 212 else if m = 9 then 243
  else if m = 10 then 273 else if m = 11 then 304 else 334

/-- proleptic-Gregorian ordinal of a date (0001-01-01 is day 1), as used by
datetime.date.toordinal. -/
def toOrdinal (v : DateTime) : Nat :=
  (v.year - 1) * 365 + (v.year - 1) / 4 - (v.year - 1) / 100 + (v.year - 1) / 400 +
    daysBeforeMonth v.month + (if 3 ≤ v.month ∧ isLeapYear v.year then 1 else 0) + v.day

/-- datetime.isoweekday() % 7 as written into the day-of-week SYSTEMTIME
field (Sunday = 0). -/
def isoweekdayMod7 (v : DateTime) : Nat := ((toOrdinal v - 1) % 7 + 1) % 7

/-! ## Primitive readers (CtrlCmdUtil.__read*) -/

/-- result of a reader: value plus updated cursor, or an error. -/
abbrev RdRes (α : Type) := Except PErr (α × Nat)

def readByte (buf : List Nat) (pos size : Nat) : RdRes Nat :=
  if size - pos < 1 then .error .readError
  else .ok (byteAt buf pos, pos + 1)

def readUshort (buf : List Nat) (pos size : Nat) : RdRes Nat :=
  if size - pos < 2 then .error .readError
  else .ok (byteAt buf pos + byteAt buf (pos + 1) * 256, pos + 2)

def readInt (buf : List Nat) (pos size : Nat) : RdRes Int :=
  if size - pos < 4 then .error .readError
  else .ok (sign32 (byteAt buf pos + byteAt buf (pos + 1) * 256 +
      byteAt buf (pos + 2) * 65536 + byteAt buf (pos + 3) * 16777216), pos + 4)

def readUint (buf : List Nat) (pos size : Nat) : RdRes Nat :=
  if size - pos < 4 then .error .readError
  else .ok (byteAt buf pos + byteAt buf (pos + 1) * 256 +
      byteAt buf (pos + 2) * 65536 + byteAt buf (pos + 3) * 16777216, pos + 4)

def readLong (buf : List Nat) (pos size : Nat) : RdRes Int :=
  if size - pos < 8 then .error .readError
  else .ok (sign64 (byteAt buf pos + byteAt buf (pos + 1) * 256 +
      byteAt buf (pos + 2) * 65536 + byteAt buf (pos + 3) * 16777216 +
      byteAt buf (pos + 4) * 4294967296 + byteAt buf (pos + 5) * 1099511627776 +
      byteAt buf (pos + 6) * 281474976710656 + byteAt buf (pos + 7) * 72057594037927936),
    pos + 8)

/-- the SYSTEMTIME fields found at the cursor (year, month, day, hour,
minute, second; the day-of-week field at offset 4 is not read). -/
def sysFieldsAt (buf : List Nat) (pos : Nat) : DateTime :=
  ⟨byteAt buf pos + byteAt buf (pos + 1) * 256,
   byteAt buf (pos + 2) + byteAt buf (pos + 3) * 256,
   byteAt buf (pos + 6) + byteAt buf (pos + 7) * 256,
   byteAt buf (pos + 8) + byteAt buf (pos + 9) * 256,
   byteAt buf (pos + 10) + byteAt buf (pos + 11) * 256,
   byteAt buf (pos + 12) + byteAt buf (pos + 13) * 256⟩

/-- CtrlCmdUtil.__readSystemTime: consume 16 bytes; construct the datetime,
falling back to the epoch sentinel when the constructor would raise. -/
def readSystemTime (buf : List Nat) (pos size : Nat) : RdRes DateTime :=
  if size - pos < 16 then .error .readError
  else
    .ok ((if validDateTime (sysFieldsAt buf pos) then sysFieldsAt buf pos else UNIX_EPOCH),
      pos + 16)

/-- CtrlCmdUtil.__readString: a 32-bit length (at least 6), then length-6
payload bytes of UTF-16LE, then 2 trailing bytes not kept.  A failed UTF-16
decode is a decodeError (uncaught in the source). -/
def readString (buf : List Nat) (pos size : Nat) : Except PErr (PyStr × Nat) := do
  let (vs, pos) ← readInt buf pos size
  if vs < 6 ∨ (size : Int) - pos < vs - 4 then .error .readError
  else
    match decodeUtf16 ((buf.drop pos).take (vs - 6).toNat) with
    | none => .error .decodeError
    | some v => .ok (v, pos + (vs - 4).toNat)

/-- element loop of CtrlCmdUtil.__readVector. -/
def readVecElems (f : List Nat → Nat → Nat → RdRes α) (buf : List Nat) (size : Nat) :
    Nat → Nat → Except PErr (List α × Nat)
  | 0, pos => .ok ([], pos)
  | n + 1, pos => do
    let (x, pos) ← f buf pos size
    let (xs, pos) ← readVecElems f buf size n pos
    .ok (x :: xs, pos)

/-- CtrlCmdUtil.__readVector: total size (at least 8), element count, then
the elements; afterwards the cursor is snapped to start + total size. -/
def readVector (f : List Nat → Nat → Nat → RdRes α) (buf : List Nat) (pos size : Nat) :
    Except PErr (List α × Nat) := do
  let (vs, pos) ← readInt buf pos size
  let (vc, pos) ← readInt buf pos size
  if vs < 8 ∨ vc < 0 ∨ (size : Int) - pos < vs - 8 then .error .readError
  else
    let size2 := pos + (vs - 8).toNat
    let (v, _) ← readVecElems f buf size2 vc.toNat pos
    .ok (v, size2)

/-- CtrlCmdUtil.__readStructIntro: 32-bit total size (at least 4); returns
the new inner size bound (struct start + total size) and the advanced cursor. -/
def readStructIntro (buf : List Nat) (pos size : Nat) : Except PErr (Nat × Nat) := do
  let (vs, pos) ← readInt buf pos size
  if vs < 4 ∨ (size : Int) - pos < vs - 4 then .error .readError
  else .ok (pos + (vs - 4).toNat, pos)

/-! ## Primitive writers (CtrlCmdUtil.__write*) -/

def writeByte (buf : List Nat) (v : Nat) : List Nat := buf ++ natToLE 1 v

/-- Python bools serialized through to_bytes: True is 1, False is 0. -/
def writeByteB (buf : List Nat) (v : Bool) : List Nat := writeByte buf (if v then 1 else 0)

def writeUshort (buf : List Nat) (v : Nat) : List Nat := buf ++ natToLE 2 v

def writeInt (buf : List Nat) (v : Int) : List Nat := buf ++ intToLE4 v

def writeIntB (buf : List Nat) (v : Bool) : List Nat := writeInt buf (if v then 1 else 0)

def writeUint (buf : List Nat) (v : Nat) : List Nat := buf ++ natToLE 4 v

def writeLong (buf : List Nat) (v : Int) : List Nat := buf ++ intToLE8 v

/-- CtrlCmdUtil.__writeIntInplace: back-patch 4 bytes at pos. -/
def writeIntInplace (buf : List Nat) (pos : Nat) (v : Int) : List Nat :=
  buf.take pos ++ intToLE4 v ++ buf.drop (pos + 4)

def writeSystemTime (buf : List Nat) (v : DateTime) : List Nat :=
  let buf := writeUshort buf v.year
  let buf := writeUshort buf v.month
  let buf := writeUshort buf (isoweekdayMod7 v)
  let buf := writeUshort buf v.day
  let buf := writeUshort buf v.hour
  let buf := writeUshort buf v.minute
  let buf := writeUshort buf v.second
  writeUshort buf 0

def writeString (buf : List Nat) (v : PyStr) : List Nat :=
  let vv := encodeUtf16 v
  let buf := writeInt buf (6 + vv.length)
  writeUshort (buf ++ vv) 0

def writeVector (f : List Nat → α → List Nat) (buf : List Nat) (v : List α) : List Nat :=
  let pos := buf.length
  let buf := writeInt buf 0
  let buf := writeInt buf (v.length : Int)
  let buf := v.foldl f buf
  writeIntInplace buf pos ((buf.length : Int) - pos)

/-! ## Record types (the TypedDicts of the source; absent-able fields are
Option, Python bool fields are Bool) -/

structure ContentData where
  content_nibble : Nat
  user_nibble : Nat
deriving DecidableEq, Repr

structure SearchDateInfo where
  start_day_of_week : Nat
  start_hour : Nat
  start_min : Nat
  end_day_of_week : Nat
  end_hour : Nat
  end_min : Nat
deriving DecidableEq, Repr

structure RecFileSetInfo where
  rec_folder : PyStr
  write_plug_in : PyStr
  rec_name_plug_in : PyStr
deriving DecidableEq, Repr

structure RecSettingData where
  rec_mode : Nat
  priority : Nat
  tuijyuu_flag : Bool
  service_mode : Nat
  pittari_flag : Bool
  bat_file_path : PyStr
  rec_folder_list : List RecFileSetInfo
  suspend_mode : Nat
  reboot_flag : Bool
  start_margin : Option Int
  end_margin : Option Int
  continue_rec_flag : Bool
  partial_rec_flag : Nat
  tuner_id : Nat
  partial_rec_folder : List RecFileSetInfo
deriving DecidableEq, Repr

structure ReserveData where
  title : PyStr
  start_time : DateTime
  duration_second : Nat
  station_name : PyStr
  onid : Nat
  tsid : Nat
  sid : Nat
  eid : Nat
  comment : PyStr
  reserve_id : Int
  overlap_mode : Nat
  start_time_epg : DateTime
  rec_setting : RecSettingData
  rec_file_name_list : List PyStr
deriving DecidableEq, Repr

structure RecFileInfo where
  id : Int
  rec_file_path : PyStr
  title : PyStr
  start_time : DateTime
  duration_sec : Nat
  service_name : PyStr
  onid : Nat
  tsid : Nat
  sid : Nat
  eid : Nat
  drops : Int
  scrambles : Int
  rec_status : Int
  start_time_epg : DateTime
  comment : PyStr
  program_info : PyStr
  err_info : PyStr
  protect_flag : Bool
deriving DecidableEq, Repr

structure SearchKeyInfo where
  and_key : PyStr
  not_key : PyStr
  key_disabled : Bool
  case_sensitive : Bool
  reg_exp_flag : Bool
  title_only_flag : Bool
  content_list : List ContentData
  date_list : List SearchDateInfo
  service_list : List Int
  video_list : List Nat
  audio_list : List Nat
  aimai_flag : Bool
  not_contet_flag : Bool
  not_date_flag : Bool
  free_ca_flag : Nat
  chk_rec_end : Bool
  chk_rec_day : Nat
  chk_rec_no_service : Bool
  chk_duration_min : Nat
  chk_duration_max : Nat
deriving DecidableEq, Repr

structure AutoAddData where
  data_id : Int
  search_info : SearchKeyInfo
  rec_setting : RecSettingData
  add_count : Int
deriving DecidableEq, Repr

structure ManualAutoAddData where
  data_id : Int
  day_of_week_flag : Nat
  start_time : Nat
  duration_second : Nat
  title : PyStr
  station_name : PyStr
  onid : Nat
  tsid : Nat
  sid : Nat
  rec_setting : RecSettingData
deriving DecidableEq, Repr

structure ServiceInfo where
  onid : Nat
  tsid : Nat
  sid : Nat
  service_type : Nat
  partial_reception_flag : Nat
  service_provider_name : PyStr
  service_name : PyStr
  network_name : PyStr
  ts_name : PyStr
  remote_control_key_id : Nat
deriving DecidableEq, Repr

/-! ## In-band text encodings inside SearchKeyInfo.and_key -/

/-- the code points of the caret marker text (caret, bang, brace, 999, brace)
meaning key_disabled. -/
def caretMark : PyStr := [94, 33, 123, 57, 57, 57, 125]

/-- the code points of the C marker text meaning case_sensitive. -/
def cMark : PyStr := [67, 33, 123, 57, 57, 57, 125]

/-- the first four code points of the duration marker text (D, bang, brace, 1). -/
def dMarkHead : PyStr := [68, 33, 123, 49]

/-- Python str.startswith. -/
def pyStartsWith (s p : PyStr) : Bool := s.take p.length = p

/-- Python str.removeprefix. -/
def pyRemovePre (s p : PyStr) : PyStr := if pyStartsWith s p then s.drop p.length else s

/-- eight-digit zero-padded decimal digits, the 08d format of the writer
(faithful for values below 10^8, which the writer guarantees by its mod). -/
def decPad8 (n : Nat) : PyStr :=
  [n / 10000000 % 10 + 48, n / 1000000 % 10 + 48, n / 100000 % 10 + 48,
   n / 10000 % 10 + 48, n / 1000 % 10 + 48, n / 100 % 10 + 48,
   n / 10 % 10 + 48, n % 10 + 48]

/-- value of a list of decimal digit code points, as Python int() reads it. -/
def digitsToNat (l : PyStr) : Nat := l.foldl (fun a c => a * 10 + (c - 48)) 0

/-- the and_key composition of CtrlCmdUtil.__writeSearchKeyInfo: optional
caret marker, optional C marker, optional duration marker, then the bare
and_key text. -/
def composeAndKey (key_disabled case_sensitive : Bool) (chk_duration : Nat)
    (and_key : PyStr) : PyStr :=
  (if key_disabled then caretMark else []) ++
  (if case_sensitive then cMark else []) ++
  (if chk_duration > 0 then dMarkHead ++ decPad8 chk_duration ++ [125] else []) ++ and_key

/-- the duration-marker test of CtrlCmdUtil.__readSearchKeyInfo: at least 13
code points, leading D-bang-brace-1, a closing brace at index 12, and eight
decimal digits between. -/
def durMarked (s : PyStr) : Bool :=
  decide (13 ≤ s.length) && pyStartsWith s dMarkHead && decide (s.getD 12 0 = 125) &&
    ((s.drop 4).take 8).all (fun c => decide (48 ≤ c) && decide (c ≤ 57))

/-- the and_key strip logic of CtrlCmdUtil.__readSearchKeyInfo: strip the
caret marker, then the C marker, then the duration marker, returning
(key_disabled, case_sensitive, chk_duration_min, chk_duration_max, bare text). -/
def stripAndKey (and_key0 : PyStr) : Bool × Bool × Nat × Nat × PyStr :=
  let key_disabled := pyStartsWith and_key0 caretMark
  let s1 := pyRemovePre and_key0 caretMark
  let case_sensitive := pyStartsWith s1 cMark
  let s2 := pyRemovePre s1 cMark
  if durMarked s2 then
    let cd := digitsToNat ((s2.drop 3).take 9)
    (key_disabled, case_sensitive, cd / 10000 % 10000, cd % 10000, s2.drop 13)
  else
    (key_disabled, case_sensitive, 0, 0, s2)

/-! ## Record writers (CtrlCmdUtil.__write<Record>) -/

/-- the byte-swap applied to each 16-bit nibble field of ContentData. -/
def swap16 (v : Nat) : Nat := (v >>> 8 ||| v <<< 8) &&& 65535

def writeContentData (buf : List Nat) (v : ContentData) : List Nat :=
  let pos := buf.length
  let buf := writeInt buf 0
  let buf := writeUshort buf (swap16 v.content_nibble)
  let buf := writeUshort buf (swap16 v.user_nibble)
  writeIntInplace buf pos ((buf.length : Int) - pos)

def writeSearchDateInfo (buf : List Nat) (v : SearchDateInfo) : List Nat :=
  let pos := buf.length
  let buf := writeInt buf 0
  let buf := writeByte buf v.start_day_of_week
  let buf := writeUshort buf v.start_hour
  let buf := writeUshort buf v.start_min
  let buf := writeByte buf v.end_day_of_week
  let buf := writeUshort buf v.end_hour
  let buf := writeUshort buf v.end_min
  writeIntInplace buf pos ((buf.length : Int) - pos)

def writeRecFileSetInfo (buf : List Nat) (v : RecFileSetInfo) : List Nat :=
  let pos := buf.length
  let buf := writeInt buf 0
  let buf := writeString buf v.rec_folder
  let buf := writeString buf v.write_plug_in
  let buf := writeString buf v.rec_name_plug_in
  let buf := writeString buf []
  writeIntInplace buf pos ((buf.length : Int) - pos)

def writeRecSettingData (buf : List Nat) (v : RecSettingData) : List Nat :=
  let pos := buf.length
  let buf := writeInt buf 0
  let buf := writeByte buf v.rec_mode
  let buf := writeByte buf v.priority
  let buf := writeByteB buf v.tuijyuu_flag
  let buf := writeUint buf v.service_mode
  let buf := writeByteB buf v.pittari_flag
  let buf := writeString buf v.bat_file_path
  let buf := writeVector writeRecFileSetInfo buf v.rec_folder_list
  let buf := writeByte buf v.suspend_mode
  let buf := writeByteB buf v.reboot_flag
  let buf := writeByteB buf (v.start_margin.isSome && v.end_margin.isSome)
  let buf := writeInt buf (v.start_margin.getD 0)
  let buf := writeInt buf (v.end_margin.getD 0)
  let buf := writeByteB buf v.continue_rec_flag
  let buf := writeByte buf v.partial_rec_flag
  let buf := writeUint buf v.tuner_id
  let buf := writeVector writeRecFileSetInfo buf v.partial_rec_folder
  writeIntInplace buf pos ((buf.length : Int) - pos)

def writeReserveData (buf : List Nat) (v : ReserveData) : List Nat :=
  let pos := buf.length
  let buf := writeInt buf 0
  let buf := writeString buf v.title
  let buf := writeSystemTime buf v.start_time
  let buf := writeUint buf v.duration_second
  let buf := writeString buf v.station_name
  let buf := writeUshort buf v.onid
  let buf := writeUshort buf v.tsid
  let buf := writeUshort buf v.sid
  let buf := writeUshort buf v.eid
  let buf := writeString buf v.comment
  let buf := writeInt buf v.reserve_id
  let buf := writeByte buf 0
  let buf := writeByte buf v.overlap_mode
  let buf := writeString buf []
  let buf := writeSystemTime buf v.start_time_epg
  let buf := writeRecSettingData buf v.rec_setting
  let buf := writeInt buf 0
  let buf := writeVector writeString buf v.rec_file_name_list
  let buf := writeInt buf 0
  writeIntInplace buf pos ((buf.length : Int) - pos)

/-- CtrlCmdUtil.__writeRecFileInfo; hasProtectFlag mirrors its
has_protect_flag parameter (default False in the source). -/
def writeRecFileInfo (buf : List Nat) (v : RecFileInfo) (hasProtectFlag : Bool) : List Nat :=
  let pos := buf.length
  let buf := writeInt buf 0
  let buf := writeInt buf v.id
  let buf := writeString buf v.rec_file_path
  let buf := writeString buf v.title
  let buf := writeSystemTime buf v.start_time
  let buf := writeUint buf v.duration_sec
  let buf := writeString buf v.service_name
  let buf := writeUshort buf v.onid
  let buf := writeUshort buf v.tsid
  let buf := writeUshort buf v.sid
  let buf := writeUshort buf v.eid
  let buf := writeLong buf v.drops
  let buf := writeLong buf v.scrambles
  let buf := writeInt buf v.rec_status
  let buf := writeSystemTime buf v.start_time_epg
  let buf := writeString buf v.comment
  let buf := writeString buf v.program_info
  let buf := writeString buf v.err_info
  let buf := if hasProtectFlag then writeByteB buf v.protect_flag else buf
  writeIntInplace buf pos ((buf.length : Int) - pos)

def writeRecFileInfo2 (buf : List Nat) (v : RecFileInfo) : List Nat :=
  writeRecFileInfo buf v true

/-- CtrlCmdUtil.__writeSearchKeyInfo; hasChkRecEnd mirrors its
has_chk_rec_end parameter (default False in the source). -/
def writeSearchKeyInfo (buf : List Nat) (v : SearchKeyInfo) (hasChkRecEnd : Bool) : List Nat :=
  let pos := buf.length
  let buf := writeInt buf 0
  let chk_duration := (v.chk_duration_min * 10000 + v.chk_duration_max) % 100000000
  let buf := writeString buf (composeAndKey v.key_disabled v.case_sensitive chk_duration v.and_key)
  let buf := writeString buf v.not_key
  let buf := writeIntB buf v.reg_exp_flag
  let buf := writeIntB buf v.title_only_flag
  let buf := writeVector writeContentData buf v.content_list
  let buf := writeVector writeSearchDateInfo buf v.date_list
  let buf := writeVector writeLong buf v.service_list
  let buf := writeVector writeUshort buf v.video_list
  let buf := writeVector writeUshort buf v.audio_list
  let buf := writeByteB buf v.aimai_flag
  let buf := writeByteB buf v.not_contet_flag
  let buf := writeByteB buf v.not_date_flag
  let buf := writeByte buf v.free_ca_flag
  let buf :=
    if hasChkRecEnd then
      let buf := writeByteB buf v.chk_rec_end
      writeUshort buf (if v.chk_rec_no_service then v.chk_rec_day % 10000 + 40000 else v.chk_rec_day)
    else buf
  writeIntInplace buf pos ((buf.length : Int) - pos)

def writeSearchKeyInfo2 (buf : List Nat) (v : SearchKeyInfo) : List Nat :=
  writeSearchKeyInfo buf v true

def writeAutoAddData (buf : List Nat) (v : AutoAddData) : List Nat :=
  let pos := buf.length
  let buf := writeInt buf 0
  let buf := writeInt buf v.data_id
  let buf := writeSearchKeyInfo2 buf v.search_info
  let buf := writeRecSettingData buf v.rec_setting
  let buf := writeInt buf v.add_count
  writeIntInplace buf pos ((buf.length : Int) - pos)

def writeManualAutoAddData (buf : List Nat) (v : ManualAutoAddData) : List Nat :=
  let pos := buf.length
  let buf := writeInt buf 0
  let buf := writeInt buf v.data_id
  let buf := writeByte buf v.day_of_week_flag
  let buf := writeUint buf v.start_time
  let buf := writeUint buf v.duration_second
  let buf := writeString buf v.title
  let buf := writeString buf v.station_name
  let buf := writeUshort buf v.onid
  let buf := writeUshort buf v.tsid
  let buf := writeUshort buf v.sid
  let buf := writeRecSettingData buf v.rec_setting
  writeIntInplace buf pos ((buf.length : Int) - pos)

/-! ## Record readers (CtrlCmdUtil.__read<Record>); each ends by snapping the
cursor to the struct end given by the struct intro. -/

def readContentData (buf : List Nat) (pos size : Nat) : Except PErr (ContentData × Nat) := do
  let (size, pos) ← readStructIntro buf pos size
  let (cn, pos) ← readUshort buf pos size
  let (un, pos) ← readUshort buf pos size
  .ok (⟨swap16 cn, swap16 un⟩, size)

def readSearchDateInfo (buf : List Nat) (pos size : Nat) :
    Except PErr (SearchDateInfo × Nat) := do
  let (size, pos) ← readStructIntro buf pos size
  let (sdw, pos) ← readByte buf pos size
  let (sh, pos) ← readUshort buf pos size
  let (sm, pos) ← readUshort buf pos size
  let (edw, pos) ← readByte buf pos size
  let (eh, pos) ← readUshort buf pos size
  let (em, pos) ← readUshort buf pos size
  .ok (⟨sdw, sh, sm, edw, eh, em⟩, size)

def readRecFileSetInfo (buf : List Nat) (pos size : Nat) :
    Except PErr (RecFileSetInfo × Nat) := do
  let (size, pos) ← readStructIntro buf pos size
  let (rec_folder, pos) ← readString buf pos size
  let (write_plug_in, pos) ← readString buf pos size
  let (rec_name_plug_in, pos) ← readString buf pos size
  let (_, pos) ← readString buf pos size
  .ok (⟨rec_folder, write_plug_in, rec_name_plug_in⟩, size)

def readRecSettingData (buf : List Nat) (pos size : Nat) :
    Except PErr (RecSettingData × Nat) := do
  let (size, pos) ← readStructIntro buf pos size
  let (rec_mode, pos) ← readByte buf pos size
  let (priority, pos) ← readByte buf pos size
  let (tuijyuu, pos) ← readByte buf pos size
  let (service_mode, pos) ← readUint buf pos size
  let (pittari, pos) ← readByte buf pos size
  let (bat_file_path, pos) ← readString buf pos size
  let (rec_folder_list, pos) ← readVector readRecFileSetInfo buf pos size
  let (suspend_mode, pos) ← readByte buf pos size
  let (reboot, pos) ← readByte buf pos size
  let (use_margin_flag, pos) ← readByte buf pos size
  let (start_margin, pos) ← readInt buf pos size
  let (end_margin, pos) ← readInt buf pos size
  let (continue_rec, pos) ← readByte buf pos size
  let (partial_rec_flag, pos) ← readByte buf pos size
  let (tuner_id, pos) ← readUint buf pos size
  let (partial_rec_folder, pos) ← readVector readRecFileSetInfo buf pos size
  .ok (⟨rec_mode, priority, tuijyuu != 0, service_mode, pittari != 0, bat_file_path,
      rec_folder_list, suspend_mode, reboot != 0,
      (if use_margin_flag != 0 then some start_margin else none),
      (if use_margin_flag != 0 then some end_margin else none),
      continue_rec != 0, partial_rec_flag, tuner_id, partial_rec_folder⟩, size)

def readReserveData (buf : List Nat) (pos size : Nat) :
    Except PErr (ReserveData × Nat) := do
  let (size, pos) ← readStructIntro buf pos size
  let (title, pos) ← readString buf pos size
  let (start_time, pos) ← readSystemTime buf pos size
  let (duration_second, pos) ← readUint buf pos size
  let (station_name, pos) ← readString buf pos size
  let (onid, pos) ← readUshort buf pos size
  let (tsid, pos) ← readUshort buf pos size
  let (sid, pos) ← readUshort buf pos size
  let (eid, pos) ← readUshort buf pos size
  let (comment, pos) ← readString buf pos size
  let (reserve_id, pos) ← readInt buf pos size
  let (_, pos) ← readByte buf pos size
  let (overlap_mode, pos) ← readByte buf pos size
  let (_, pos) ← readString buf pos size
  let (start_time_epg, pos) ← readSystemTime buf pos size
  let (rec_setting, pos) ← readRecSettingData buf pos size
  let (_, pos) ← readInt buf pos size
  let (rec_file_name_list, pos) ← readVector readString buf pos size
  let (_, pos) ← readInt buf pos size
  .ok (⟨title, start_time, duration_second, station_name, onid, tsid, sid, eid,
      comment, reserve_id, overlap_mode, start_time_epg, rec_setting,
      rec_file_name_list⟩, size)

def readRecFileInfo (buf : List Nat) (pos size : Nat) :
    Except PErr (RecFileInfo × Nat) := do
  let (size, pos) ← readStructIntro buf pos size
  let (id, pos) ← readInt buf pos size
  let (rec_file_path, pos) ← readString buf pos size
  let (title, pos) ← readString buf pos size
  let (start_time, pos) ← readSystemTime buf pos size
  let (duration_sec, pos) ← readUint buf pos size
  let (service_name, pos) ← readString buf pos size
  let (onid, pos) ← readUshort buf pos size
  let (tsid, pos) ← readUshort buf pos size
  let (sid, pos) ← readUshort buf pos size
  let (eid, pos) ← readUshort buf pos size
  let (drops, pos) ← readLong buf pos size
  let (scrambles, pos) ← readLong buf pos size
  let (rec_status, pos) ← readInt buf pos size
  let (start_time_epg, pos) ← readSystemTime buf pos size
  let (comment, pos) ← readString buf pos size
  let (program_info, pos) ← readString buf pos size
  let (err_info, pos) ← readString buf pos size
  let (protect, pos) ← readByte buf pos size
  .ok (⟨id, rec_file_path, title, start_time, duration_sec, service_name, onid, tsid,
      sid, eid, drops, scrambles, rec_status, start_time_epg, comment, program_info,
      err_info, protect != 0⟩, size)

def readSearchKeyInfo (buf : List Nat) (pos size : Nat) :
    Except PErr (SearchKeyInfo × Nat) := do
  let (size, pos) ← readStructIntro buf pos size
  let (and_key0, pos) ← readString buf pos size
  let (key_disabled, case_sensitive, chk_duration_min, chk_duration_max, and_key) :=
    stripAndKey and_key0
  let (not_key, pos) ← readString buf pos size
  let (reg_exp, pos) ← readInt buf pos size
  let (title_only, pos) ← readInt buf pos size
  let (content_list, pos) ← readVector readContentData buf pos size
  let (date_list, pos) ← readVector readSearchDateInfo buf pos size
  let (service_list, pos) ← readVector readLong buf pos size
  let (video_list, pos) ← readVector readUshort buf pos size
  let (audio_list, pos) ← readVector readUshort buf pos size
  let (aimai, pos) ← readByte buf pos size
  let (not_contet, pos) ← readByte buf pos size
  let (not_date, pos) ← readByte buf pos size
  let (free_ca_flag, pos) ← readByte buf pos size
  let (chk_rec_end, pos) ← readByte buf pos size
  let (chk_rec_day0, pos) ← readUshort buf pos size
  .ok (⟨and_key, not_key, key_disabled, case_sensitive, reg_exp != 0, title_only != 0,
      content_list, date_list, service_list, video_list, audio_list,
      aimai != 0, not_contet != 0, not_date != 0, free_ca_flag, chk_rec_end != 0,
      (if 40000 ≤ chk_rec_day0 then chk_rec_day0 % 10000 else chk_rec_day0),
      (40000 ≤ chk_rec_day0 : Bool),
      chk_duration_min, chk_duration_max⟩, size)

def readAutoAddData (buf : List Nat) (pos size : Nat) :
    Except PErr (AutoAddData × Nat) := do
  let (size, pos) ← readStructIntro buf pos size
  let (data_id, pos) ← readInt buf pos size
  let (search_info, pos) ← readSearchKeyInfo buf pos size
  let (rec_setting, pos) ← readRecSettingData buf pos size
  let (add_count, pos) ← readInt buf pos size
  .ok (⟨data_id, search_info, rec_setting, add_count⟩, size)

def readManualAutoAddData (buf : List Nat) (pos size : Nat) :
    Except PErr (ManualAutoAddData × Nat) := do
  let (size, pos) ← readStructIntro buf pos size
  let (data_id, pos) ← readInt buf pos size
  let (day_of_week_flag, pos) ← readByte buf pos size
  let (start_time, pos) ← readUint buf pos size
  let (duration_second, pos) ← readUint buf pos size
  let (title, pos) ← readString buf pos size
  let (station_name, pos) ← readString buf pos size
  let (onid, pos) ← readUshort buf pos size
  let (tsid, pos) ← readUshort buf pos size
  let (sid, pos) ← readUshort buf pos size
  let (rec_setting, pos) ← readRecSettingData buf pos size
  .ok (⟨data_id, day_of_week_flag, start_time, duration_second, title, station_name,
      onid, tsid, sid, rec_setting⟩, size)

def readServiceInfo (buf : List Nat) (pos size : Nat) :
    Except PErr (ServiceInfo × Nat) := do
  let (size, pos) ← readStructIntro buf pos size
  let (onid, pos) ← readUshort buf pos size
  let (tsid, pos) ← readUshort buf pos size
  let (sid, pos) ← readUshort buf pos size
  let (service_type, pos) ← readByte buf pos size
  let (partial_reception_flag, pos) ← readByte buf pos size
  let (service_provider_name, pos) ← readString buf pos size
  let (service_name, pos) ← readString buf pos size
  let (network_name, pos) ← readString buf pos size
  let (ts_name, pos) ← readString buf pos size
  let (remote_control_key_id, pos) ← readByte buf pos size
  .ok (⟨onid, tsid, sid, service_type, partial_reception_flag, service_provider_name,
      service_name, network_name, ts_name, remote_control_key_id⟩, size)

/-! ## Command facade (CtrlCmdUtil.__sendCmd / __sendCmd2 and the send*
response handling).  The transport is out of scope: the facade is modelled
from the point where (ret, rbuf) is available; a transport failure is
ret = none. -/

def CMD_SUCCESS : Int := 1

def CMD_VER : Nat := 5

def CMD_EPG_SRV_ENUM_SERVICE : Int := 1021

def CMD_EPG_SRV_ENUM_RESERVE2 : Int := 2011

/-- the request frame built by CtrlCmdUtil.__sendCmd: opcode, placeholder
size, optional payload, then the size back-patched to length - 8. -/
def sendCmdBuf (cmd : Int) (wf : List Nat → List Nat) : List Nat :=
  let buf : List Nat := []
  let buf := writeInt buf cmd
  let buf := writeInt buf 0
  let buf := wf buf
  writeIntInplace buf 4 ((buf.length : Int) - 8)

/-- the request frame built by CtrlCmdUtil.__sendCmd2: like sendCmdBuf but
with the 16-bit CMD_VER prepended to the payload. -/
def sendCmd2Buf (cmd2 : Int) (wf : List Nat → List Nat) : List Nat :=
  let buf : List Nat := []
  let buf := writeInt buf cmd2
  let buf := writeInt buf 0
  let buf := writeUshort buf CMD_VER
  let buf := wf buf
  writeIntInplace buf 4 ((buf.length : Int) - 8)

/-- sendEnumService from the point where the response (ret, rbuf) is in hand:
on success parse a vector of ServiceInfo, converting a ReadError to the
no-result outcome none; a decodeError is not caught and escapes. -/
def enumServiceOfResponse (ret : Option Int) (rbuf : List Nat) :
    Except PErr (Option (List ServiceInfo)) :=
  if ret = some CMD_SUCCESS then
    match readVector readServiceInfo rbuf 0 rbuf.length with
    | .ok (v, _) => .ok (some v)
    | .error .readError => .ok none
    | .error .decodeError => .error .decodeError
  else .ok none

/-- sendEnumReserve from the point where the response (ret, rbuf) is in hand:
on success read the 16-bit response version; below CMD_VER the operation
yields none, otherwise the ReserveData vector is parsed; a ReadError becomes
none, a decodeError escapes. -/
def enumReserveOfResponse (ret : Option Int) (rbuf : List Nat) :
    Except PErr (Option (List ReserveData)) :=
  if ret = some CMD_SUCCESS then
    match readUshort rbuf 0 rbuf.length with
    | .error e => if e = .readError then .ok none else .error e
    | .ok (ver, pos) =>
      if CMD_VER ≤ ver then
        match readVector readReserveData rbuf pos rbuf.length with
        | .ok (v, _) => .ok (some v)
        | .error .readError => .ok none
        | .error .decodeError => .error .decodeError
      else .ok none
  else .ok none

/-! ## Text helpers (EDCBUtil).  Python str semantics are modelled on code
point lists; upper() is modelled on the ASCII range (the keys compared here
are hexadecimal, so only ASCII case matters). -/

/-- code points at which Python str.splitlines breaks (newline, carriage
return handled separately, vertical tab, form feed, file/group/record
separators, next line, line separator, paragraph separator). -/
def isLineBreakChar (c : Nat) : Bool :=
  c = 10 || c = 11 || c = 12 || c = 28 || c = 29 || c = 30 || c = 133 ||
  c = 8232 || c = 8233

def splitlinesGo : List Nat → List Nat → List (List Nat)
  | [], acc => if acc.isEmpty then [] else [acc.reverse]
  | c :: rest, acc =>
    if c = 13 then
      match rest with
      | 10 :: rest2 => acc.reverse :: splitlinesGo rest2 []
      | rest2 => acc.reverse :: splitlinesGo rest2 []
    else if isLineBreakChar c then acc.reverse :: splitlinesGo rest []
    else splitlinesGo rest (c :: acc)
termination_by s _ => s.length

/-- Python str.splitlines. -/
def pySplitlines (s : PyStr) : List PyStr := splitlinesGo s []

/-- Python line.split(sep, 1): none when sep does not occur, otherwise the
parts before and after the first occurrence. -/
def pySplitOnce (sep : Nat) : PyStr → Option (PyStr × PyStr)
  | [] => none
  | c :: rest =>
    if c = sep then some ([], rest)
    else (pySplitOnce sep rest).map (fun p => (c :: p.1, p.2))

/-- the code points Python str.strip removes (str.isspace characters). -/
def pyIsSpace (c : Nat) : Bool :=
  (9 ≤ c && c ≤ 13) || (28 ≤ c && c ≤ 32) || c = 133 || c = 160 || c = 5760 ||
  (8192 ≤ c && c ≤ 8202) || c = 8232 || c = 8233 || c = 8239 || c = 8287 || c = 12288

/-- Python str.strip(). -/
def pyStrip (s : PyStr) : PyStr :=
  ((s.dropWhile pyIsSpace).reverse.dropWhile pyIsSpace).reverse

/-- Python str.upper restricted to ASCII letters (sufficient for the
hexadecimal keys compared by the INI lookup). -/
def asciiUpper (s : PyStr) : PyStr :=
  s.map (fun c => if 97 ≤ c ∧ c ≤ 122 then c - 32 else c)

def isDigitChar (c : Nat) : Bool := 48 ≤ c && c ≤ 57

/-- digit run of Python int() after the first digit: ASCII digits with
single underscores allowed between digits. -/
def parseDigitsGo : List Nat → Nat → Option Nat
  | [], acc => some acc
  | c :: rest, acc =>
    if isDigitChar c then parseDigitsGo rest (acc * 10 + (c - 48))
    else if c = 95 then
      match rest with
      | [] => none
      | d :: rest2 =>
        if isDigitChar d then parseDigitsGo rest2 (acc * 10 + (d - 48)) else none
    else none
termination_by s _ => s.length

/-- Python int(str) on an already stripped string: optional sign, then at
least one ASCII digit (non-ASCII digits are out of the modelled domain). -/
def pyParseInt (s : PyStr) : Option Int :=
  match s with
  | 43 :: c :: rest =>
    if isDigitChar c then (parseDigitsGo rest (c - 48)).map (fun n => (n : Int)) else none
  | 45 :: c :: rest =>
    if isDigitChar c then (parseDigitsGo rest (c - 48)).map (fun n => -(n : Int)) else none
  | c :: rest =>
    if isDigitChar c then (parseDigitsGo rest (c - 48)).map (fun n => (n : Int)) else none
  | [] => none

/-- uppercase hexadecimal digits of n, most significant first (empty for 0). -/
def hexDigits : Nat → PyStr
  | 0 => []
  | n + 1 =>
    hexDigits ((n + 1) / 16) ++
      [(if (n + 1) % 16 < 10 then (n + 1) % 16 + 48 else (n + 1) % 16 + 55)]
decreasing_by exact Nat.div_lt_self (Nat.succ_pos n) (by omega)

/-- the 04X format: uppercase hexadecimal, zero-padded to width 4. -/
def hex4 (n : Nat) : PyStr :=
  let d := if n = 0 then [48] else hexDigits n
  List.replicate (4 - d.length) 48 ++ d

/-- one line of the scan loop body of getLogoIDFromLogoDataIni: on the first
line whose key (stripped, uppercased) equals the target, return the parsed
integer value, or -1 when int() raises (the loop breaks). -/
def logoIdScan (target : PyStr) : List PyStr → Int
  | [] => -1
  | line :: rest =>
    match pySplitOnce 61 line with
    | some kv =>
      if asciiUpper (pyStrip kv.1) = target then
        match pyParseInt (pyStrip kv.2) with
        | some n => n
        | none => -1
      else logoIdScan target rest
    | none => logoIdScan target rest

/-- EDCBUtil.getLogoIDFromLogoDataIni. -/
def getLogoIDFromLogoDataIni (s : PyStr) (onid sid : Nat) : Int :=
  logoIdScan (hex4 onid ++ hex4 sid) (pySplitlines s)

/-! ## Length facts -/

theorem natToLE_length (w v : Nat) : (natToLE w v).length = w := by
  induction w generalizing v with
  | zero => rfl
  | succ w ih => simp [natToLE, ih]

theorem intToLE4_length (v : Int) : (intToLE4 v).length = 4 := by
  simp [intToLE4, natToLE_length]

theorem intToLE8_length (v : Int) : (intToLE8 v).length = 8 := by
  simp [intToLE8, natToLE_length]

/-! ## Buffer segments: the bytes w sit in buf at position pos -/

def SegAt (buf : List Nat) (pos : Nat) (w : List Nat) : Prop :=
  (buf.drop pos).take w.length = w

theorem SegAt.split {buf : List Nat} {pos : Nat} {w1 w2 : List Nat}
    (h : SegAt buf pos (w1 ++ w2)) :
    SegAt buf pos w1 ∧ SegAt buf (pos + w1.length) w2 := by
  unfold SegAt at h ⊢
  rw [List.length_append, List.take_add] at h
  have h1 : ((buf.drop pos).take w1.length).length = w1.length := by
    have hl := congrArg List.length h
    simp only [List.length_append, List.length_take, List.length_drop] at hl
    simp only [List.length_take, List.length_drop]
    omega
  obtain ⟨ha, hb⟩ := List.append_inj h h1
  refine ⟨ha, ?_⟩
  rw [List.drop_drop] at hb
  exact hb

theorem SegAt.byte {buf : List Nat} {pos : Nat} {w : List Nat}
    (h : SegAt buf pos w) {i : Nat} (hi : i < w.length) :
    byteAt buf (pos + i) = w.getD i 0 := by
  unfold SegAt at h
  have h2 : w[i]? = buf[pos + i]? := by
    conv_lhs => rw [← h]
    rw [List.getElem?_take, List.getElem?_drop]
    simp [hi]
  unfold byteAt
  rw [List.getD_eq_getElem?_getD, List.getD_eq_getElem?_getD, ← h2]

/-- bind reduction for the Except do-blocks of the readers. -/
theorem ok_bind {α β : Type _} (a : α) (f : α → Except PErr β) :
    (Except.ok a >>= f) = f a := rfl

theorem error_bind {α β : Type _} (e : PErr) (f : α → Except PErr β) :
    ((Except.error e : Except PErr α) >>= f) = Except.error e := rfl

/-! ## Primitive reader lemmas: reading back what the writers emitted -/

theorem readByte_seg {b : Nat} (hb : b < 256) {buf : List Nat} {pos size : Nat}
    (hseg : SegAt buf pos (natToLE 1 b)) (hsz : pos + 1 ≤ size) :
    readByte buf pos size = .ok (b, pos + 1) := by
  have h0 := hseg.byte (i := 0) (by simp [natToLE_length])
  simp only [natToLE, List.getD_cons_zero, List.getD_cons_succ, Nat.add_zero] at h0
  unfold readByte
  rw [if_neg (by omega), h0]
  simp [Nat.mod_eq_of_lt hb]

theorem readUshort_seg {v : Nat} (hv : v < 65536) {buf : List Nat} {pos size : Nat}
    (hseg : SegAt buf pos (natToLE 2 v)) (hsz : pos + 2 ≤ size) :
    readUshort buf pos size = .ok (v, pos + 2) := by
  have h0 := hseg.byte (i := 0) (by simp [natToLE_length])
  have h1 := hseg.byte (i := 1) (by simp [natToLE_length])
  simp only [natToLE, List.getD_cons_zero, List.getD_cons_succ, Nat.add_zero] at h0 h1
  unfold readUshort
  rw [if_neg (by omega), h0, h1]
  have : v % 256 + v / 256 % 256 * 256 = v := by omega
  rw [this]

theorem readUint_seg {v : Nat} (hv : v < 4294967296) {buf : List Nat} {pos size : Nat}
    (hseg : SegAt buf pos (natToLE 4 v)) (hsz : pos + 4 ≤ size) :
    readUint buf pos size = .ok (v, pos + 4) := by
  have h0 := hseg.byte (i := 0) (by simp [natToLE_length])
  have h1 := hseg.byte (i := 1) (by simp [natToLE_length])
  have h2 := hseg.byte (i := 2) (by simp [natToLE_length])
  have h3 := hseg.byte (i := 3) (by simp [natToLE_length])
  simp only [natToLE, List.getD_cons_zero, List.getD_cons_succ, Nat.add_zero] at h0 h1 h2 h3
  unfold readUint
  rw [if_neg (by omega), h0, h1, h2, h3]
  have : v % 256 + v / 256 % 256 * 256 + v / 256 / 256 % 256 * 65536 +
      v / 256 / 256 / 256 % 256 * 16777216 = v := by omega
  rw [this]

theorem readInt_seg {v : Int} (hlo : -2147483648 ≤ v) (hhi : v < 2147483648)
    {buf : List Nat} {pos size : Nat}
    (hseg : SegAt buf pos (intToLE4 v)) (hsz : pos + 4 ≤ size) :
    readInt buf pos size = .ok (v, pos + 4) := by
  unfold intToLE4 at hseg
  set u := ((v % 4294967296 : Int)).toNat with hu
  have hult : u < 4294967296 := by
    have ha := Int.emod_nonneg v (by norm_num : (4294967296 : Int) ≠ 0)
    have hb := Int.emod_lt_of_pos v (by norm_num : (0 : Int) < 4294967296)
    omega
  have h0 := hseg.byte (i := 0) (by simp [natToLE_length])
  have h1 := hseg.byte (i := 1) (by simp [natToLE_length])
  have h2 := hseg.byte (i := 2) (by simp [natToLE_length])
  have h3 := hseg.byte (i := 3) (by simp [natToLE_length])
  simp only [natToLE, List.getD_cons_zero, List.getD_cons_succ, Nat.add_zero] at h0 h1 h2 h3
  unfold readInt
  rw [if_neg (by omega), h0, h1, h2, h3]
  have hsum : u % 256 + u / 256 % 256 * 256 + u / 256 / 256 % 256 * 65536 +
      u / 256 / 256 / 256 % 256 * 16777216 = u := by omega
  rw [hsum]
  have : sign32 u = v := by
    unfold sign32
    have hm : v % 4294967296 = if 0 ≤ v then v else v + (4294967296 : Int) := by
      split <;> omega
    split <;> omega
  rw [this]

theorem readLong_seg {v : Int} (hlo : -9223372036854775808 ≤ v)
    (hhi : v < 9223372036854775808) {buf : List Nat} {pos size : Nat}
    (hseg : SegAt buf pos (intToLE8 v)) (hsz : pos + 8 ≤ size) :
    readLong buf pos size = .ok (v, pos + 8) := by
  unfold intToLE8 at hseg
  set u := ((v % 18446744073709551616 : Int)).toNat with hu
  have hult : u < 18446744073709551616 := by
    have ha := Int.emod_nonneg v (by norm_num : (18446744073709551616 : Int) ≠ 0)
    have hb := Int.emod_lt_of_pos v (by norm_num : (0 : Int) < 18446744073709551616)
    omega
  have h0 := hseg.byte (i := 0) (by simp [natToLE_length])
  have h1 := hseg.byte (i := 1) (by simp [natToLE_length])
  have h2 := hseg.byte (i := 2) (by simp [natToLE_length])
  have h3 := hseg.byte (i := 3) (by simp [natToLE_length])
  have h4 := hseg.byte (i := 4) (by simp [natToLE_length])
  have h5 := hseg.byte (i := 5) (by simp [natToLE_length])
  have h6 := hseg.byte (i := 6) (by simp [natToLE_length])
  have h7 := hseg.byte (i := 7) (by simp [natToLE_length])
  simp only [natToLE, List.getD_cons_zero, List.getD_cons_succ, Nat.add_zero] at h0 h1 h2 h3 h4 h5 h6 h7
  unfold readLong
  rw [if_neg (by omega), h0, h1, h2, h3, h4, h5, h6, h7]
  have hsum : u % 256 + u / 256 % 256 * 256 + u / 256 / 256 % 256 * 65536 +
      u / 256 / 256 / 256 % 256 * 16777216 +
      u / 256 / 256 / 256 / 256 % 256 * 4294967296 +
      u / 256 / 256 / 256 / 256 / 256 % 256 * 1099511627776 +
      u / 256 / 256 / 256 / 256 / 256 / 256 % 256 * 281474976710656 +
      u / 256 / 256 / 256 / 256 / 256 / 256 / 256 % 256 * 72057594037927936 = u := by
    omega
  rw [hsum]
  have : sign64 u = v := by
    unfold sign64
    have hm : v % 18446744073709551616 =
        if 0 ≤ v then v else v + (18446744073709551616 : Int) := by
      split <;> omega
    split <;> omega
  rw [this]

/-! ## The nibble byte swap -/

theorem swap16_lt (v : Nat) : swap16 v < 65536 := by
  unfold swap16
  have h : (v >>> 8 ||| v <<< 8) &&& 65535 = (v >>> 8 ||| v <<< 8) % 65536 := by
    have := Nat.and_pow_two_sub_one_eq_mod (v >>> 8 ||| v <<< 8) 16
    norm_num at this
    exact this
  rw [h]
  exact Nat.mod_lt _ (by norm_num)

theorem swap16_testBit (v i : Nat) :
    (swap16 v).testBit i =
      (decide (i < 16) && (v.testBit (8 + i) || (decide (i ≥ 8) && v.testBit (i - 8)))) := by
  unfold swap16
  have h : (v >>> 8 ||| v <<< 8) &&& 65535 = (v >>> 8 ||| v <<< 8) % 2 ^ 16 := by
    have h2 := Nat.and_pow_two_sub_one_eq_mod (v >>> 8 ||| v <<< 8) 16
    norm_num at h2
    rw [h2]
    norm_num
  rw [h, Nat.testBit_mod_two_pow, Nat.testBit_lor, Nat.testBit_shiftRight,
    Nat.testBit_shiftLeft]

theorem testBit_ge_16 {v i : Nat} (hv : v < 65536) (hi : 16 ≤ i) :
    v.testBit i = false := by
  apply Nat.testBit_lt_two_pow
  calc v < 65536 := hv
    _ = 2 ^ 16 := by norm_num
    _ ≤ 2 ^ i := Nat.pow_le_pow_right (by norm_num) hi

theorem swap16_swap16 {v : Nat} (hv : v < 65536) : swap16 (swap16 v) = v := by
  apply Nat.eq_of_testBit_eq
  intro i
  rw [swap16_testBit, swap16_testBit, swap16_testBit]
  by_cases h8 : i < 8
  · have e2 : v.testBit (8 + (8 + i)) = false := testBit_ge_16 hv (by omega)
    have e3 : 8 + i - 8 = i := by omega
    simp [e2, e3, show (8:Nat) + i < 16 by omega, show (8:Nat) ≤ 8 + i by omega,
      show ¬ (8 ≤ i) by omega, show i < 16 by omega]
  · by_cases h16 : i < 16
    · have e4 : 8 + (i - 8) = i := by omega
      simp [e4, h16, show ¬ (8 + i < 16) by omega, show (8:Nat) ≤ i by omega,
        show ¬ (8 ≤ i - 8) by omega, show i - 8 < 16 by omega]
    · have e5 : v.testBit i = false := testBit_ge_16 hv (by omega)
      simp [h16, e5]

/-! ## UTF-16 round trip -/

/-- the 16-bit units a single code point encodes to. -/
def unitsOfChar (c : Nat) : List Nat :=
  if c < 65536 then [c]
  else [55296 + (c - 65536) / 1024, 56320 + (c - 65536) % 1024]

theorem bytesToUnits_cons2 (a b : Nat) (l : List Nat) :
    bytesToUnits (a :: b :: l) = (bytesToUnits l).map (fun us => (a + b * 256) :: us) := rfl

theorem bytesToUnits_encChar {c : Nat} (hc : c < 1114112) (l : List Nat) :
    bytesToUnits (encChar c ++ l) = (bytesToUnits l).map (fun us => unitsOfChar c ++ us) := by
  unfold encChar unitsOfChar
  by_cases h : c < 65536
  · simp only [if_pos h, List.cons_append, List.nil_append, bytesToUnits_cons2]
    have e : c % 256 + c / 256 % 256 * 256 = c := by omega
    simp [e]
  · simp only [if_neg h, List.cons_append, List.nil_append, bytesToUnits_cons2]
    have e1 : (55296 + (c - 65536) / 1024) % 256 +
        (55296 + (c - 65536) / 1024) / 256 % 256 * 256 = 55296 + (c - 65536) / 1024 := by
      omega
    have e2 : (56320 + (c - 65536) % 1024) % 256 +
        (56320 + (c - 65536) % 1024) / 256 % 256 * 256 = 56320 + (c - 65536) % 1024 := by
      omega
    simp [e1, e2, Option.map_map]
    rfl

theorem unitsToChars_cons_pair (u v : Nat) (rest : List Nat)
    (hu : 55296 ≤ u ∧ u < 56320) (hv : 56320 ≤ v ∧ v < 57344) :
    unitsToChars (u :: v :: rest) =
      (unitsToChars rest).map (fun s => (65536 + (u - 55296) * 1024 + (v - 56320)) :: s) := by
  rw [unitsToChars.eq_def]
  simp only [if_pos hu, if_pos hv]

theorem unitsToChars_cons_plain (u : Nat) (rest : List Nat)
    (hu : ¬ (55296 ≤ u ∧ u < 56320)) (hv : ¬ (56320 ≤ u ∧ u < 57344)) :
    unitsToChars (u :: rest) = (unitsToChars rest).map (fun s => u :: s) := by
  rw [unitsToChars.eq_def]
  simp only []
  rw [if_neg hu, if_neg hv]

theorem unitsToChars_unitsOfChar {c : Nat} (hc : ValidChar c) (us : List Nat) :
    unitsToChars (unitsOfChar c ++ us) = (unitsToChars us).map (fun s => c :: s) := by
  unfold ValidChar at hc
  unfold unitsOfChar
  by_cases h : c < 65536
  · have hns : ¬ (55296 ≤ c ∧ c < 56320) := by omega
    have hns2 : ¬ (56320 ≤ c ∧ c < 57344) := by omega
    simp only [if_pos h, List.cons_append, List.nil_append]
    rw [unitsToChars_cons_plain c us hns hns2]
  · have hcl : c < 1114112 := by omega
    have hhi : 55296 ≤ 55296 + (c - 65536) / 1024 ∧ 55296 + (c - 65536) / 1024 < 56320 := by
      omega
    have hlo : 56320 ≤ 56320 + (c - 65536) % 1024 ∧ 56320 + (c - 65536) % 1024 < 57344 := by
      omega
    simp only [if_neg h, List.cons_append, List.nil_append]
    rw [unitsToChars_cons_pair _ _ _ hhi hlo]
    have e : 65536 + (55296 + (c - 65536) / 1024 - 55296) * 1024 +
        (56320 + (c - 65536) % 1024 - 56320) = c := by omega
    rw [e]

theorem decodeUtf16_encodeUtf16 {s : PyStr} (hs : ValidStr s) :
    decodeUtf16 (encodeUtf16 s) = some s := by
  induction s with
  | nil => rfl
  | cons c cs ih =>
    have hc : ValidChar c := hs c (by simp)
    have hcs : ValidStr cs := fun x hx => hs x (by simp [hx])
    have ih2 := ih hcs
    have hcl : c < 1114112 := by unfold ValidChar at hc; omega
    have henc : encodeUtf16 (c :: cs) = encChar c ++ encodeUtf16 cs := by
      simp [encodeUtf16]
    rw [henc]
    unfold decodeUtf16 at ih2 ⊢
    rw [bytesToUnits_encChar hcl]
    cases hbu : bytesToUnits (encodeUtf16 cs) with
    | none => rw [hbu] at ih2; simp at ih2
    | some us =>
      rw [hbu] at ih2
      simp only [Option.some_bind] at ih2
      simp only [Option.map_some', Option.some_bind]
      rw [unitsToChars_unitsOfChar hc, ih2]
      rfl

/-! ## SYSTEMTIME segment lemma -/

/-- the 16 bytes written by writeSystemTime. -/
def encSystemTime (v : DateTime) : List Nat :=
  natToLE 2 v.year ++ natToLE 2 v.month ++ natToLE 2 (isoweekdayMod7 v) ++
  natToLE 2 v.day ++ natToLE 2 v.hour ++ natToLE 2 v.minute ++ natToLE 2 v.second ++
  natToLE 2 0

theorem encSystemTime_length (v : DateTime) : (encSystemTime v).length = 16 := by
  simp [encSystemTime, natToLE_length]

theorem writeSystemTime_eq (buf : List Nat) (v : DateTime) :
    writeSystemTime buf v = buf ++ encSystemTime v := by
  simp [writeSystemTime, writeUshort, encSystemTime, List.append_assoc]

theorem readSystemTime_seg {v : DateTime} (hv : validDateTime v)
    {buf : List Nat} {pos size : Nat}
    (hseg : SegAt buf pos (encSystemTime v)) (hsz : pos + 16 ≤ size) :
    readSystemTime buf pos size = .ok (v, pos + 16) := by
  have hexp : encSystemTime v =
      [v.year % 256, v.year / 256 % 256, v.month % 256, v.month / 256 % 256,
       isoweekdayMod7 v % 256, isoweekdayMod7 v / 256 % 256,
       v.day % 256, v.day / 256 % 256, v.hour % 256, v.hour / 256 % 256,
       v.minute % 256, v.minute / 256 % 256, v.second % 256, v.second / 256 % 256,
       0, 0] := by
    simp [encSystemTime, natToLE]
  rw [hexp] at hseg
  have b0 := hseg.byte (i := 0) (by simp)
  have b1 := hseg.byte (i := 1) (by simp)
  have b2 := hseg.byte (i := 2) (by simp)
  have b3 := hseg.byte (i := 3) (by simp)
  have b6 := hseg.byte (i := 6) (by simp)
  have b7 := hseg.byte (i := 7) (by simp)
  have b8 := hseg.byte (i := 8) (by simp)
  have b9 := hseg.byte (i := 9) (by simp)
  have b10 := hseg.byte (i := 10) (by simp)
  have b11 := hseg.byte (i := 11) (by simp)
  have b12 := hseg.byte (i := 12) (by simp)
  have b13 := hseg.byte (i := 13) (by simp)
  simp only [List.getD_cons_zero, List.getD_cons_succ,
    Nat.add_zero] at b0 b1 b2 b3 b6 b7 b8 b9 b10 b11 b12 b13
  have hv2 := hv
  obtain ⟨hy1, hy2, hm1, hm2, hd1, hd2, hh, hmi, hse⟩ := hv2
  have hdm : daysInMonth v.year v.month ≤ 31 := by
    unfold daysInMonth
    split
    · split <;> omega
    · split <;> omega
  have hfields : sysFieldsAt buf pos = v := by
    unfold sysFieldsAt
    rw [b0, b1, b2, b3, b6, b7, b8, b9, b10, b11, b12, b13]
    have e1 : v.year % 256 + v.year / 256 % 256 * 256 = v.year := by omega
    have e2 : v.month % 256 + v.month / 256 % 256 * 256 = v.month := by omega
    have e3 : v.day % 256 + v.day / 256 % 256 * 256 = v.day := by omega
    have e4 : v.hour % 256 + v.hour / 256 % 256 * 256 = v.hour := by omega
    have e5 : v.minute % 256 + v.minute / 256 % 256 * 256 = v.minute := by omega
    have e6 : v.second % 256 + v.second / 256 % 256 * 256 = v.second := by omega
    rw [e1, e2, e3, e4, e5, e6]
  unfold readSystemTime
  rw [if_neg (by omega), hfields, if_pos hv]

/-! ## String segment lemma -/

/-- the bytes written by writeString. -/
def encString (s : PyStr) : List Nat :=
  intToLE4 ((6 + (encodeUtf16 s).length : Nat)) ++ encodeUtf16 s ++ natToLE 2 0

theorem encString_length (s : PyStr) :
    (encString s).length = (encodeUtf16 s).length + 6 := by
  simp [encString, intToLE4_length, natToLE_length]
  omega

theorem writeString_eq (buf : List Nat) (s : PyStr) :
    writeString buf s = buf ++ encString s := by
  simp [writeString, writeInt, writeUshort, encString, List.append_assoc]

theorem readString_seg {s : PyStr} (hs : ValidStr s)
    (hb : (encodeUtf16 s).length + 6 < 2147483648)
    {buf : List Nat} {pos size : Nat}
    (hseg : SegAt buf pos (encString s)) (hsz : pos + (encString s).length ≤ size) :
    readString buf pos size = .ok (s, pos + (encString s).length) := by
  unfold encString at hseg
  rw [List.append_assoc] at hseg
  obtain ⟨hs1, hs2⟩ := hseg.split
  rw [intToLE4_length] at hs2
  obtain ⟨hs2a, hs2b⟩ := hs2.split
  unfold readString
  rw [readInt_seg (by omega) (by push_cast; omega) hs1
    (by rw [encString_length] at hsz; omega)]
  rw [ok_bind]
  simp only
  rw [if_neg (by
    push_cast
    rw [encString_length] at hsz
    omega)]
  have hn : (((6 + (encodeUtf16 s).length : Nat) : Int) - 6).toNat = (encodeUtf16 s).length := by
    omega
  rw [hn]
  unfold SegAt at hs2a
  rw [hs2a, decodeUtf16_encodeUtf16 hs]
  have hp : pos + 4 + (((6 + (encodeUtf16 s).length : Nat) : Int) - 4).toNat =
      pos + (encString s).length := by
    rw [encString_length]
    omega
  rw [hp]

/-! ## Struct intro segment lemma -/

/-- a struct on the wire: 32-bit total size then the body. -/
def encStruct (body : List Nat) : List Nat := intToLE4 ((4 + body.length : Nat)) ++ body

theorem encStruct_length (body : List Nat) : (encStruct body).length = body.length + 4 := by
  simp [encStruct, intToLE4_length]
  omega

theorem readStructIntro_seg {body : List Nat} (hb : body.length + 4 < 2147483648)
    {buf : List Nat} {pos size : Nat}
    (hseg : SegAt buf pos (encStruct body))
    (hsz : pos + (encStruct body).length ≤ size) :
    readStructIntro buf pos size = .ok (pos + 4 + body.length, pos + 4) := by
  unfold encStruct at hseg
  obtain ⟨hs1, hs2⟩ := hseg.split
  unfold readStructIntro
  rw [readInt_seg (by omega) (by push_cast; omega) hs1
    (by rw [encStruct_length] at hsz; omega)]
  rw [ok_bind]
  simp only
  rw [if_neg (by
    push_cast
    rw [encStruct_length] at hsz
    omega)]
  have hp : pos + 4 + (((4 + body.length : Nat) : Int) - 4).toNat = pos + 4 + body.length := by
    omega
  rw [hp]

/-! ## Writer normalization: every writer appends a pure encoding -/

theorem writeIntInplace_spec (buf rest : List Nat) (V : Int) :
    writeIntInplace (buf ++ (intToLE4 0 ++ rest)) buf.length V =
      buf ++ (intToLE4 V ++ rest) := by
  unfold writeIntInplace
  rw [List.take_left]
  have hd : (buf ++ (intToLE4 0 ++ rest)).drop (buf.length + 4) = rest := by
    rw [show buf ++ (intToLE4 0 ++ rest) = (buf ++ intToLE4 0) ++ rest by
      simp [List.append_assoc]]
    have hl : (buf ++ intToLE4 0).length = buf.length + 4 := by simp [intToLE4_length]
    rw [← hl, List.drop_left]
  rw [hd]
  simp [List.append_assoc]

theorem patchVal (buf rest : List Nat) :
    ((buf ++ (intToLE4 0 ++ rest)).length : Int) - (buf.length : Int) =
      ((4 + rest.length : Nat) : Int) := by
  simp only [List.length_append, intToLE4_length]
  push_cast
  ring

/-! ## Vector segment lemmas -/

/-- the bytes written by writeVector with a pure element encoding g. -/
def encVector (g : α → List Nat) (v : List α) : List Nat :=
  intToLE4 ((8 + ((v.map g).flatten).length : Nat)) ++ intToLE4 (v.length : Int) ++
    (v.map g).flatten

theorem encVector_length (g : α → List Nat) (v : List α) :
    (encVector g v).length = ((v.map g).flatten).length + 8 := by
  simp [encVector, intToLE4_length]
  omega

theorem foldl_writer_append (f : List Nat → α → List Nat) (g : α → List Nat)
    (hf : ∀ b x, f b x = b ++ g x) :
    ∀ (v : List α) (b : List Nat), v.foldl f b = b ++ (v.map g).flatten := by
  intro v
  induction v with
  | nil => intro b; simp
  | cons x xs ih => intro b; simp [hf, ih, List.append_assoc]

theorem writeVector_eq (f : List Nat → α → List Nat) (g : α → List Nat)
    (hf : ∀ b x, f b x = b ++ g x) (buf : List Nat) (v : List α) :
    writeVector f buf v = buf ++ encVector g v := by
  unfold writeVector encVector
  simp only [writeInt]
  rw [foldl_writer_append f g hf]
  rw [show ((buf ++ intToLE4 0) ++ intToLE4 (v.length : Int)) ++ (v.map g).flatten =
      buf ++ (intToLE4 0 ++ (intToLE4 (v.length : Int) ++ (v.map g).flatten)) by
    simp [List.append_assoc]]
  rw [patchVal, writeIntInplace_spec]
  have e : (4 + (intToLE4 (v.length : Int) ++ (v.map g).flatten).length : Nat) =
      (8 + ((v.map g).flatten).length : Nat) := by
    simp [intToLE4_length]
    omega
  rw [e]
  simp [List.append_assoc]

theorem readVecElems_seg {r : List Nat → Nat → Nat → RdRes α} {g : β → List Nat}
    {h : β → α} :
    ∀ (v : List β)
      (helem : ∀ x ∈ v, ∀ buf pos size, SegAt buf pos (g x) →
        pos + (g x).length ≤ size → r buf pos size = .ok (h x, pos + (g x).length))
      (buf : List Nat) (pos size : Nat),
      SegAt buf pos ((v.map g).flatten) → pos + ((v.map g).flatten).length ≤ size →
      readVecElems r buf size v.length pos = .ok (v.map h, pos + ((v.map g).flatten).length)
  | [], helem, buf, pos, size, hseg, hsz => by
    simp [readVecElems]
  | x :: xs, helem, buf, pos, size, hseg, hsz => by
    have hflat : ((x :: xs).map g).flatten = g x ++ ((xs.map g).flatten) := by simp
    rw [hflat] at hseg hsz
    obtain ⟨hs1, hs2⟩ := hseg.split
    have hlen : (g x ++ (xs.map g).flatten).length =
        (g x).length + ((xs.map g).flatten).length := by simp
    rw [hlen] at hsz
    show readVecElems r buf size (xs.length + 1) pos = _
    rw [readVecElems]
    rw [helem x (by simp) buf pos size hs1 (by omega)]
    rw [ok_bind]
    simp only
    rw [readVecElems_seg xs (fun y hy => helem y (by simp [hy])) buf
      (pos + (g x).length) size hs2 (by omega)]
    rw [ok_bind]
    simp only
    simp [Nat.add_assoc]

theorem readVector_seg {r : List Nat → Nat → Nat → RdRes α} {g : β → List Nat}
    {h : β → α} (v : List β)
    (helem : ∀ x ∈ v, ∀ buf pos size, SegAt buf pos (g x) →
      pos + (g x).length ≤ size → r buf pos size = .ok (h x, pos + (g x).length))
    (hn : v.length < 2147483648)
    (hflen : ((v.map g).flatten).length + 8 < 2147483648)
    {buf : List Nat} {pos size : Nat}
    (hseg : SegAt buf pos (encVector g v)) (hsz : pos + (encVector g v).length ≤ size) :
    readVector r buf pos size = .ok (v.map h, pos + (encVector g v).length) := by
  unfold encVector at hseg
  rw [List.append_assoc] at hseg
  obtain ⟨hs1, hs2⟩ := hseg.split
  rw [intToLE4_length] at hs2
  obtain ⟨hs2a, hs2b⟩ := hs2.split
  rw [intToLE4_length] at hs2b
  rw [encVector_length] at hsz
  unfold readVector
  rw [readInt_seg (by omega) (by push_cast; omega) hs1 (by omega)]
  rw [ok_bind]
  simp only
  rw [readInt_seg (by omega) (by omega) hs2a (by omega)]
  rw [ok_bind]
  simp only
  rw [if_neg (by push_cast; omega)]
  have hc : ((v.length : Int)).toNat = v.length := by omega
  have hs2' : (((8 + ((v.map g).flatten).length : Nat) : Int) - 8).toNat =
      ((v.map g).flatten).length := by omega
  rw [hc, hs2']
  rw [readVecElems_seg v helem buf (pos + 4 + 4)
    (pos + 4 + 4 + ((v.map g).flatten).length) hs2b (by omega)]
  rw [ok_bind]
  simp only
  have efin : pos + 4 + 4 + ((v.map g).flatten).length = pos + (encVector g v).length := by
    rw [encVector_length]
    omega
  rw [efin]

/-! ## ContentData codec -/

def encContentData (v : ContentData) : List Nat :=
  encStruct (natToLE 2 (swap16 v.content_nibble) ++ natToLE 2 (swap16 v.user_nibble))

theorem encContentData_length (v : ContentData) : (encContentData v).length = 8 := by
  simp [encContentData, encStruct_length, natToLE_length]

theorem writeContentData_eq (buf : List Nat) (v : ContentData) :
    writeContentData buf v = buf ++ encContentData v := by
  unfold writeContentData encContentData encStruct
  simp only [writeInt, writeUshort]
  rw [show ((buf ++ intToLE4 0) ++ natToLE 2 (swap16 v.content_nibble)) ++
      natToLE 2 (swap16 v.user_nibble) =
      buf ++ (intToLE4 0 ++ (natToLE 2 (swap16 v.content_nibble) ++
        natToLE 2 (swap16 v.user_nibble))) by simp [List.append_assoc]]
  rw [patchVal, writeIntInplace_spec]

theorem readContentData_seg {v : ContentData} (h1 : v.content_nibble < 65536)
    (h2 : v.user_nibble < 65536) {buf : List Nat} {pos size : Nat}
    (hseg : SegAt buf pos (encContentData v))
    (hsz : pos + (encContentData v).length ≤ size) :
    readContentData buf pos size = .ok (v, pos + (encContentData v).length) := by
  rw [encContentData_length] at hsz ⊢
  unfold encContentData at hseg
  have hbody := @readStructIntro_seg (natToLE 2 (swap16 v.content_nibble) ++
    natToLE 2 (swap16 v.user_nibble)) (by simp [natToLE_length]) buf pos size hseg
    (by rw [encStruct_length]; simp [natToLE_length]; omega)
  unfold encStruct at hseg
  obtain ⟨hs1, hs2⟩ := hseg.split
  rw [intToLE4_length] at hs2
  obtain ⟨hs2a, hs2b⟩ := hs2.split
  rw [natToLE_length] at hs2b
  unfold readContentData
  rw [hbody]
  rw [ok_bind]
  simp only
  rw [readUshort_seg (swap16_lt _) hs2a
    (by simp only [List.length_append, natToLE_length]; omega)]
  rw [ok_bind]
  simp only
  rw [readUshort_seg (swap16_lt _) hs2b
    (by simp only [List.length_append, natToLE_length]; omega)]
  rw [ok_bind]
  simp only
  rw [swap16_swap16 h1, swap16_swap16 h2]
  have efin : pos + 4 + (natToLE 2 (swap16 v.content_nibble) ++
      natToLE 2 (swap16 v.user_nibble)).length = pos + 8 := by
    have h4 : (natToLE 2 (swap16 v.content_nibble) ++
        natToLE 2 (swap16 v.user_nibble)).length = 4 := by
      simp [natToLE_length]
    omega
  rw [efin]

/-! ## Boolean round-trip helpers -/

theorem bne_ite_nat (b : Bool) : ((if b then (1 : Nat) else 0) != 0) = b := by
  cases b <;> rfl

theorem bne_ite_int (b : Bool) : ((if b then (1 : Int) else 0) != 0) = b := by
  cases b <;> rfl

theorem ite_nat_lt_256 (b : Bool) : (if b then (1 : Nat) else 0) < 256 := by
  cases b <;> norm_num

theorem ite_int_range (b : Bool) :
    -2147483648 ≤ (if b then (1 : Int) else 0) ∧ (if b then (1 : Int) else 0) < 2147483648 := by
  cases b <;> norm_num

/-- a well-formed string value: Unicode scalars only and encodable length
within a 32-bit size field. -/
def wfStr (s : PyStr) : Prop :=
  ValidStr s ∧ (encodeUtf16 s).length + 6 < 2147483648

instance (s : PyStr) : Decidable (wfStr s) := by unfold wfStr; infer_instance

/-! ## SearchDateInfo codec -/

def encSearchDateInfo (v : SearchDateInfo) : List Nat :=
  encStruct (natToLE 1 v.start_day_of_week ++ (natToLE 2 v.start_hour ++
    (natToLE 2 v.start_min ++ (natToLE 1 v.end_day_of_week ++ (natToLE 2 v.end_hour ++
    natToLE 2 v.end_min)))))

theorem encSearchDateInfo_length (v : SearchDateInfo) :
    (encSearchDateInfo v).length = 14 := by
  simp [encSearchDateInfo, encStruct_length, natToLE_length]

theorem writeSearchDateInfo_eq (buf : List Nat) (v : SearchDateInfo) :
    writeSearchDateInfo buf v = buf ++ encSearchDateInfo v := by
  unfold writeSearchDateInfo encSearchDateInfo encStruct
  simp only [writeByte, writeUshort, writeInt, List.append_assoc]
  rw [patchVal, writeIntInplace_spec]

def wfSearchDateInfo (v : SearchDateInfo) : Prop :=
  v.start_day_of_week < 256 ∧ v.start_hour < 65536 ∧ v.start_min < 65536 ∧
  v.end_day_of_week < 256 ∧ v.end_hour < 65536 ∧ v.end_min < 65536

instance (v : SearchDateInfo) : Decidable (wfSearchDateInfo v) := by
  unfold wfSearchDateInfo; infer_instance

theorem readSearchDateInfo_seg {v : SearchDateInfo} (hwf : wfSearchDateInfo v)
    {buf : List Nat} {pos size : Nat}
    (hseg : SegAt buf pos (encSearchDateInfo v))
    (hsz : pos + (encSearchDateInfo v).length ≤ size) :
    readSearchDateInfo buf pos size = .ok (v, pos + (encSearchDateInfo v).length) := by
  obtain ⟨w1, w2, w3, w4, w5, w6⟩ := hwf
  rw [encSearchDateInfo_length] at hsz ⊢
  unfold encSearchDateInfo at hseg
  have hbody := @readStructIntro_seg
    (natToLE 1 v.start_day_of_week ++ (natToLE 2 v.start_hour ++
      (natToLE 2 v.start_min ++ (natToLE 1 v.end_day_of_week ++ (natToLE 2 v.end_hour ++
      natToLE 2 v.end_min)))))
    (by simp [natToLE_length]) buf pos size hseg
    (by rw [encStruct_length]; simp only [List.length_append, natToLE_length]; omega)
  unfold encStruct at hseg
  obtain ⟨hs0, hx⟩ := hseg.split
  rw [intToLE4_length] at hx
  obtain ⟨h1, hx⟩ := hx.split
  rw [natToLE_length] at hx
  obtain ⟨h2, hx⟩ := hx.split
  rw [natToLE_length] at hx
  obtain ⟨h3, hx⟩ := hx.split
  rw [natToLE_length] at hx
  obtain ⟨h4, hx⟩ := hx.split
  rw [natToLE_length] at hx
  obtain ⟨h5, h6⟩ := hx.split
  rw [natToLE_length] at h6
  have hlens : (natToLE 1 v.start_day_of_week ++ (natToLE 2 v.start_hour ++
      (natToLE 2 v.start_min ++ (natToLE 1 v.end_day_of_week ++ (natToLE 2 v.end_hour ++
      natToLE 2 v.end_min))))).length = 10 := by
    simp only [List.length_append, natToLE_length]
  unfold readSearchDateInfo
  rw [hbody, ok_bind]
  simp only
  rw [hlens]
  rw [readByte_seg w1 h1 (by omega), ok_bind]
  simp only
  rw [readUshort_seg w2 h2 (by omega), ok_bind]
  simp only
  rw [readUshort_seg w3 h3 (by omega), ok_bind]
  simp only
  rw [readByte_seg w4 h4 (by omega), ok_bind]
  simp only
  rw [readUshort_seg w5 h5 (by omega), ok_bind]
  simp only
  rw [readUshort_seg w6 h6 (by omega), ok_bind]

/-! ## RecFileSetInfo codec -/

def encRecFileSetInfo (v : RecFileSetInfo) : List Nat :=
  encStruct (encString v.rec_folder ++ (encString v.write_plug_in ++
    (encString v.rec_name_plug_in ++ encString [])))

theorem writeRecFileSetInfo_eq (buf : List Nat) (v : RecFileSetInfo) :
    writeRecFileSetInfo buf v = buf ++ encRecFileSetInfo v := by
  unfold writeRecFileSetInfo encRecFileSetInfo encStruct
  simp only [writeInt, writeString_eq, List.append_assoc]
  rw [patchVal, writeIntInplace_spec]

def wfRecFileSetInfo (v : RecFileSetInfo) : Prop :=
  wfStr v.rec_folder ∧ wfStr v.write_plug_in ∧ wfStr v.rec_name_plug_in ∧
  (encRecFileSetInfo v).length ≤ 2147483647

instance (v : RecFileSetInfo) : Decidable (wfRecFileSetInfo v) := by
  unfold wfRecFileSetInfo; infer_instance

theorem wfStr_nil : wfStr [] := by decide

theorem readRecFileSetInfo_seg {v : RecFileSetInfo} (hwf : wfRecFileSetInfo v)
    {buf : List Nat} {pos size : Nat}
    (hseg : SegAt buf pos (encRecFileSetInfo v))
    (hsz : pos + (encRecFileSetInfo v).length ≤ size) :
    readRecFileSetInfo buf pos size = .ok (v, pos + (encRecFileSetInfo v).length) := by
  obtain ⟨⟨s1v, s1b⟩, ⟨s2v, s2b⟩, ⟨s3v, s3b⟩, hlen⟩ := hwf
  rw [encRecFileSetInfo, encStruct_length] at hsz hlen ⊢
  unfold encRecFileSetInfo at hseg
  have hbody := @readStructIntro_seg
    (encString v.rec_folder ++ (encString v.write_plug_in ++
      (encString v.rec_name_plug_in ++ encString [])))
    (by simp only [List.length_append] at hlen ⊢; omega) buf pos size hseg
    (by rw [encStruct_length]; omega)
  unfold encStruct at hseg
  obtain ⟨hs0, hx⟩ := hseg.split
  rw [intToLE4_length] at hx
  obtain ⟨h1, hx⟩ := hx.split
  obtain ⟨h2, hx⟩ := hx.split
  obtain ⟨h3, h4⟩ := hx.split
  simp only [List.length_append] at hsz hlen
  unfold readRecFileSetInfo
  rw [hbody, ok_bind]
  simp only
  rw [readString_seg s1v s1b h1 (by simp only [List.length_append]; omega), ok_bind]
  simp only
  rw [readString_seg s2v s2b h2 (by simp only [List.length_append]; omega), ok_bind]
  simp only
  rw [readString_seg s3v s3b h3 (by simp only [List.length_append]; omega), ok_bind]
  simp only
  rw [readString_seg wfStr_nil.1 wfStr_nil.2 h4
    (by simp only [List.length_append]; omega), ok_bind]
  have efin : pos + 4 + (encString v.rec_folder ++ (encString v.write_plug_in ++
      (encString v.rec_name_plug_in ++ encString []))).length =
      pos + ((encString v.rec_folder ++ (encString v.write_plug_in ++
      (encString v.rec_name_plug_in ++ encString []))).length + 4) := by
    omega
  rw [efin]

/-! ## Specialized vector lemmas -/

def wfContentData (v : ContentData) : Prop :=
  v.content_nibble < 65536 ∧ v.user_nibble < 65536

instance (v : ContentData) : Decidable (wfContentData v) := by
  unfold wfContentData; infer_instance

theorem writeVector_rfsi_eq (buf : List Nat) (v : List RecFileSetInfo) :
    writeVector writeRecFileSetInfo buf v = buf ++ encVector encRecFileSetInfo v :=
  writeVector_eq _ _ writeRecFileSetInfo_eq buf v

theorem writeVector_string_eq (buf : List Nat) (v : List PyStr) :
    writeVector writeString buf v = buf ++ encVector encString v :=
  writeVector_eq _ _ writeString_eq buf v

theorem writeVector_ushort_eq (buf : List Nat) (v : List Nat) :
    writeVector writeUshort buf v = buf ++ encVector (natToLE 2) v :=
  writeVector_eq _ _ (fun _ _ => rfl) buf v

theorem writeVector_long_eq (buf : List Nat) (v : List Int) :
    writeVector writeLong buf v = buf ++ encVector intToLE8 v :=
  writeVector_eq _ _ (fun _ _ => rfl) buf v

theorem writeVector_content_eq (buf : List Nat) (v : List ContentData) :
    writeVector writeContentData buf v = buf ++ encVector encContentData v :=
  writeVector_eq _ _ writeContentData_eq buf v

theorem writeVector_date_eq (buf : List Nat) (v : List SearchDateInfo) :
    writeVector writeSearchDateInfo buf v = buf ++ encVector encSearchDateInfo v :=
  writeVector_eq _ _ writeSearchDateInfo_eq buf v

theorem readVector_rfsi_seg (l : List RecFileSetInfo) (hl : ∀ x ∈ l, wfRecFileSetInfo x)
    (hn : l.length < 2147483648)
    (hflen : ((l.map encRecFileSetInfo).flatten).length + 8 < 2147483648)
    {buf : List Nat} {pos size : Nat}
    (hseg : SegAt buf pos (encVector encRecFileSetInfo l))
    (hsz : pos + (encVector encRecFileSetInfo l).length ≤ size) :
    readVector readRecFileSetInfo buf pos size =
      .ok (l, pos + (encVector encRecFileSetInfo l).length) := by
  have h := readVector_seg (h := id) l
    (fun x hx buf2 p2 s2 a b => readRecFileSetInfo_seg (hl x hx) a b) hn hflen hseg hsz
  simpa using h

theorem readVector_string_seg (l : List PyStr) (hl : ∀ x ∈ l, wfStr x)
    (hn : l.length < 2147483648)
    (hflen : ((l.map encString).flatten).length + 8 < 2147483648)
    {buf : List Nat} {pos size : Nat}
    (hseg : SegAt buf pos (encVector encString l))
    (hsz : pos + (encVector encString l).length ≤ size) :
    readVector readString buf pos size =
      .ok (l, pos + (encVector encString l).length) := by
  have h := readVector_seg (h := id) l
    (fun x hx buf2 p2 s2 a b => readString_seg (hl x hx).1 (hl x hx).2 a b) hn hflen hseg hsz
  simpa using h

theorem readVector_ushort_seg (l : List Nat) (hl : ∀ x ∈ l, x < 65536)
    (hn : l.length < 2147483648)
    (hflen : ((l.map (natToLE 2)).flatten).length + 8 < 2147483648)
    {buf : List Nat} {pos size : Nat}
    (hseg : SegAt buf pos (encVector (natToLE 2) l))
    (hsz : pos + (encVector (natToLE 2) l).length ≤ size) :
    readVector readUshort buf pos size =
      .ok (l, pos + (encVector (natToLE 2) l).length) := by
  have h := readVector_seg (h := id) l
    (fun x hx buf2 p2 s2 a b => readUshort_seg (hl x hx) a b) hn hflen hseg hsz
  simpa using h

theorem readVector_long_seg (l : List Int)
    (hl : ∀ x ∈ l, -9223372036854775808 ≤ x ∧ x < 9223372036854775808)
    (hn : l.length < 2147483648)
    (hflen : ((l.map intToLE8).flatten).length + 8 < 2147483648)
    {buf : List Nat} {pos size : Nat}
    (hseg : SegAt buf pos (encVector intToLE8 l))
    (hsz : pos + (encVector intToLE8 l).length ≤ size) :
    readVector readLong buf pos size =
      .ok (l, pos + (encVector intToLE8 l).length) := by
  have h := readVector_seg (h := id) l
    (fun x hx buf2 p2 s2 a b => readLong_seg (hl x hx).1 (hl x hx).2 a b) hn hflen hseg hsz
  simpa using h

theorem readVector_content_seg (l : List ContentData) (hl : ∀ x ∈ l, wfContentData x)
    (hn : l.length < 2147483648)
    (hflen : ((l.map encContentData).flatten).length + 8 < 2147483648)
    {buf : List Nat} {pos size : Nat}
    (hseg : SegAt buf pos (encVector encContentData l))
    (hsz : pos + (encVector encContentData l).length ≤ size) :
    readVector readContentData buf pos size =
      .ok (l, pos + (encVector encContentData l).length) := by
  have h := readVector_seg (h := id) l
    (fun x hx buf2 p2 s2 a b => readContentData_seg (hl x hx).1 (hl x hx).2 a b) hn hflen
    hseg hsz
  simpa using h

theorem readVector_date_seg (l : List SearchDateInfo) (hl : ∀ x ∈ l, wfSearchDateInfo x)
    (hn : l.length < 2147483648)
    (hflen : ((l.map encSearchDateInfo).flatten).length + 8 < 2147483648)
    {buf : List Nat} {pos size : Nat}
    (hseg : SegAt buf pos (encVector encSearchDateInfo l))
    (hsz : pos + (encVector encSearchDateInfo l).length ≤ size) :
    readVector readSearchDateInfo buf pos size =
      .ok (l, pos + (encVector encSearchDateInfo l).length) := by
  have h := readVector_seg (h := id) l
    (fun x hx buf2 p2 s2 a b => readSearchDateInfo_seg (hl x hx) a b) hn hflen hseg hsz
  simpa using h

/-! ## Margin pair helpers -/

theorem margin_fst (o1 o2 : Option Int) (h : o1.isSome = o2.isSome) :
    (if (o1.isSome && o2.isSome) then some (o1.getD 0) else none) = o1 := by
  cases o1 <;> cases o2 <;> simp_all

theorem margin_snd (o1 o2 : Option Int) (h : o1.isSome = o2.isSome) :
    (if (o1.isSome && o2.isSome) then some (o2.getD 0) else none) = o2 := by
  cases o1 <;> cases o2 <;> simp_all

/-! ## RecSettingData codec -/

def encRecSettingData (v : RecSettingData) : List Nat :=
  encStruct (natToLE 1 v.rec_mode ++ (natToLE 1 v.priority ++
    (natToLE 1 (if v.tuijyuu_flag then 1 else 0) ++ (natToLE 4 v.service_mode ++
    (natToLE 1 (if v.pittari_flag then 1 else 0) ++ (encString v.bat_file_path ++
    (encVector encRecFileSetInfo v.rec_folder_list ++ (natToLE 1 v.suspend_mode ++
    (natToLE 1 (if v.reboot_flag then 1 else 0) ++
    (natToLE 1 (if (v.start_margin.isSome && v.end_margin.isSome) then 1 else 0) ++
    (intToLE4 (v.start_margin.getD 0) ++ (intToLE4 (v.end_margin.getD 0) ++
    (natToLE 1 (if v.continue_rec_flag then 1 else 0) ++ (natToLE 1 v.partial_rec_flag ++
    (natToLE 4 v.tuner_id ++ encVector encRecFileSetInfo v.partial_rec_folder)))))))))))))))

theorem writeRecSettingData_eq (buf : List Nat) (v : RecSettingData) :
    writeRecSettingData buf v = buf ++ encRecSettingData v := by
  unfold writeRecSettingData encRecSettingData encStruct
  simp only [writeByte, writeByteB, writeUint, writeInt, writeString_eq,
    writeVector_rfsi_eq, List.append_assoc]
  rw [patchVal, writeIntInplace_spec]

def wfRecSettingData (v : RecSettingData) : Prop :=
  v.rec_mode < 256 ∧ v.priority < 256 ∧ v.service_mode < 4294967296 ∧
  wfStr v.bat_file_path ∧ (∀ x ∈ v.rec_folder_list, wfRecFileSetInfo x) ∧
  v.rec_folder_list.length < 2147483648 ∧
  ((v.rec_folder_list.map encRecFileSetInfo).flatten).length + 8 < 2147483648 ∧
  v.suspend_mode < 256 ∧
  v.start_margin.isSome = v.end_margin.isSome ∧
  -2147483648 ≤ v.start_margin.getD 0 ∧ v.start_margin.getD 0 < 2147483648 ∧
  -2147483648 ≤ v.end_margin.getD 0 ∧ v.end_margin.getD 0 < 2147483648 ∧
  v.partial_rec_flag < 256 ∧ v.tuner_id < 4294967296 ∧
  (∀ x ∈ v.partial_rec_folder, wfRecFileSetInfo x) ∧
  v.partial_rec_folder.length < 2147483648 ∧
  ((v.partial_rec_folder.map encRecFileSetInfo).flatten).length + 8 < 2147483648 ∧
  (encRecSettingData v).length ≤ 2147483647

instance (v : RecSettingData) : Decidable (wfRecSettingData v) := by
  unfold wfRecSettingData; infer_instance

theorem readRecSettingData_seg {v : RecSettingData} (hwf : wfRecSettingData v)
    {buf : List Nat} {pos size : Nat}
    (hseg : SegAt buf pos (encRecSettingData v))
    (hsz : pos + (encRecSettingData v).length ≤ size) :
    readRecSettingData buf pos size = .ok (v, pos + (encRecSettingData v).length) := by
  obtain ⟨b1, b2, b3, bs, bfl, bfn, bff, b4, hm, bm1, bm2, bm3, bm4, b5, b6, bpl, bpn,
    bpf, htot⟩ := hwf
  rw [encRecSettingData, encStruct_length] at hsz htot ⊢
  unfold encRecSettingData at hseg
  have hbody := @readStructIntro_seg
    (natToLE 1 v.rec_mode ++ (natToLE 1 v.priority ++
      (natToLE 1 (if v.tuijyuu_flag then 1 else 0) ++ (natToLE 4 v.service_mode ++
      (natToLE 1 (if v.pittari_flag then 1 else 0) ++ (encString v.bat_file_path ++
      (encVector encRecFileSetInfo v.rec_folder_list ++ (natToLE 1 v.suspend_mode ++
      (natToLE 1 (if v.reboot_flag then 1 else 0) ++
      (natToLE 1 (if (v.start_margin.isSome && v.end_margin.isSome) then 1 else 0) ++
      (intToLE4 (v.start_margin.getD 0) ++ (intToLE4 (v.end_margin.getD 0) ++
      (natToLE 1 (if v.continue_rec_flag then 1 else 0) ++ (natToLE 1 v.partial_rec_flag ++
      (natToLE 4 v.tuner_id ++ encVector encRecFileSetInfo v.partial_rec_folder)))))))))))))))
    (by omega) buf pos size hseg (by rw [encStruct_length]; omega)
  unfold encStruct at hseg
  obtain ⟨hs0, hx⟩ := hseg.split
  rw [intToLE4_length] at hx
  obtain ⟨h1, hx⟩ := hx.split
  obtain ⟨h2, hx⟩ := hx.split
  obtain ⟨h3, hx⟩ := hx.split
  obtain ⟨h4, hx⟩ := hx.split
  obtain ⟨h5, hx⟩ := hx.split
  obtain ⟨h6, hx⟩ := hx.split
  obtain ⟨h7, hx⟩ := hx.split
  obtain ⟨h8, hx⟩ := hx.split
  obtain ⟨h9, hx⟩ := hx.split
  obtain ⟨h10, hx⟩ := hx.split
  obtain ⟨h11, hx⟩ := hx.split
  obtain ⟨h12, hx⟩ := hx.split
  obtain ⟨h13, hx⟩ := hx.split
  obtain ⟨h14, hx⟩ := hx.split
  obtain ⟨h15, h16⟩ := hx.split
  simp only [natToLE_length, intToLE4_length] at h2 h3 h4 h5 h6 h7 h8 h9 h10 h11 h12 h13
  simp only [natToLE_length, intToLE4_length] at h14 h15 h16
  simp only [List.length_append, natToLE_length, intToLE4_length] at hsz htot
  unfold readRecSettingData
  rw [hbody, ok_bind]
  simp only
  rw [readByte_seg b1 h1
    (by simp only [List.length_append, natToLE_length, intToLE4_length]; omega), ok_bind]
  simp only
  rw [readByte_seg b2 h2
    (by simp only [List.length_append, natToLE_length, intToLE4_length]; omega), ok_bind]
  simp only
  rw [readByte_seg (ite_nat_lt_256 _) h3
    (by simp only [List.length_append, natToLE_length, intToLE4_length]; omega), ok_bind]
  simp only
  rw [readUint_seg b3 h4
    (by simp only [List.length_append, natToLE_length, intToLE4_length]; omega), ok_bind]
  simp only
  rw [readByte_seg (ite_nat_lt_256 _) h5
    (by simp only [List.length_append, natToLE_length, intToLE4_length]; omega), ok_bind]
  simp only
  rw [readString_seg bs.1 bs.2 h6
    (by simp only [List.length_append, natToLE_length, intToLE4_length]; omega), ok_bind]
  simp only
  rw [readVector_rfsi_seg v.rec_folder_list bfl bfn bff h7
    (by simp only [List.length_append, natToLE_length, intToLE4_length,
      encVector_length]; omega), ok_bind]
  simp only
  rw [readByte_seg b4 h8
    (by simp only [List.length_append, natToLE_length, intToLE4_length,
      encVector_length]; omega), ok_bind]
  simp only
  rw [readByte_seg (ite_nat_lt_256 _) h9
    (by simp only [List.length_append, natToLE_length, intToLE4_length,
      encVector_length]; omega), ok_bind]
  simp only
  rw [readByte_seg (ite_nat_lt_256 _) h10
    (by simp only [List.length_append, natToLE_length, intToLE4_length,
      encVector_length]; omega), ok_bind]
  simp only
  rw [readInt_seg bm1 bm2 h11
    (by simp only [List.length_append, natToLE_length, intToLE4_length,
      encVector_length]; omega), ok_bind]
  simp only
  rw [readInt_seg bm3 bm4 h12
    (by simp only [List.length_append, natToLE_length, intToLE4_length,
      encVector_length]; omega), ok_bind]
  simp only
  rw [readByte_seg (ite_nat_lt_256 _) h13
    (by simp only [List.length_append, natToLE_length, intToLE4_length,
      encVector_length]; omega), ok_bind]
  simp only
  rw [readByte_seg b5 h14
    (by simp only [List.length_append, natToLE_length, intToLE4_length,
      encVector_length]; omega), ok_bind]
  simp only
  rw [readUint_seg b6 h15
    (by simp only [List.length_append, natToLE_length, intToLE4_length,
      encVector_length]; omega), ok_bind]
  simp only
  rw [readVector_rfsi_seg v.partial_rec_folder bpl bpn bpf h16
    (by simp only [List.length_append, natToLE_length, intToLE4_length,
      encVector_length]; omega), ok_bind]
  simp only
  rw [bne_ite_nat, bne_ite_nat, bne_ite_nat, bne_ite_nat, bne_ite_nat,
    margin_fst v.start_margin v.end_margin hm, margin_snd v.start_margin v.end_margin hm]
  have efin : pos + 4 + (natToLE 1 v.rec_mode ++ (natToLE 1 v.priority ++
      (natToLE 1 (if v.tuijyuu_flag then 1 else 0) ++ (natToLE 4 v.service_mode ++
      (natToLE 1 (if v.pittari_flag then 1 else 0) ++ (encString v.bat_file_path ++
      (encVector encRecFileSetInfo v.rec_folder_list ++ (natToLE 1 v.suspend_mode ++
      (natToLE 1 (if v.reboot_flag then 1 else 0) ++
      (natToLE 1 (if (v.start_margin.isSome && v.end_margin.isSome) then 1 else 0) ++
      (intToLE4 (v.start_margin.getD 0) ++ (intToLE4 (v.end_margin.getD 0) ++
      (natToLE 1 (if v.continue_rec_flag then 1 else 0) ++ (natToLE 1 v.partial_rec_flag ++
      (natToLE 4 v.tuner_id ++
        encVector encRecFileSetInfo v.partial_rec_folder))))))))))))))).length =
      pos + ((natToLE 1 v.rec_mode ++ (natToLE 1 v.priority ++
      (natToLE 1 (if v.tuijyuu_flag then 1 else 0) ++ (natToLE 4 v.service_mode ++
      (natToLE 1 (if v.pittari_flag then 1 else 0) ++ (encString v.bat_file_path ++
      (encVector encRecFileSetInfo v.rec_folder_list ++ (natToLE 1 v.suspend_mode ++
      (natToLE 1 (if v.reboot_flag then 1 else 0) ++
      (natToLE 1 (if (v.start_margin.isSome && v.end_margin.isSome) then 1 else 0) ++
      (intToLE4 (v.start_margin.getD 0) ++ (intToLE4 (v.end_margin.getD 0) ++
      (natToLE 1 (if v.continue_rec_flag then 1 else 0) ++ (natToLE 1 v.partial_rec_flag ++
      (natToLE 4 v.tuner_id ++
        encVector encRecFileSetInfo v.partial_rec_folder))))))))))))))).length + 4) := by
    omega
  rw [efin]

/-- closing helper: equal payloads and equal cursor positions give equal
reader results. -/
theorem ok_pair_eq {α : Type _} (a b : α) (p q : Nat) (h1 : a = b) (h2 : p = q) :
    (Except.ok (a, p) : Except PErr (α × Nat)) = .ok (b, q) := by rw [h1, h2]

/-! ## ReserveData codec.  The three-plus-one reserved fields are modelled as
parameters of the layout so that their irrelevance to the reader is provable. -/

def encReserveDataRes (v : ReserveData) (rb : Nat) (rs : PyStr) (r1 r2 : Int) :
    List Nat :=
  encStruct (encString v.title ++ (encSystemTime v.start_time ++
    (natToLE 4 v.duration_second ++ (encString v.station_name ++ (natToLE 2 v.onid ++
    (natToLE 2 v.tsid ++ (natToLE 2 v.sid ++ (natToLE 2 v.eid ++ (encString v.comment ++
    (intToLE4 v.reserve_id ++ (natToLE 1 rb ++ (natToLE 1 v.overlap_mode ++
    (encString rs ++ (encSystemTime v.start_time_epg ++ (encRecSettingData v.rec_setting ++
    (intToLE4 r1 ++ (encVector encString v.rec_file_name_list ++
    intToLE4 r2)))))))))))))))))

/-- the bytes writeReserveData emits: the reserved slots hold a zero byte, an
empty string and two zero ints. -/
def encReserveData (v : ReserveData) : List Nat := encReserveDataRes v 0 [] 0 0

theorem writeReserveData_eq (buf : List Nat) (v : ReserveData) :
    writeReserveData buf v = buf ++ encReserveData v := by
  unfold writeReserveData encReserveData encReserveDataRes encStruct
  simp only [writeByte, writeUshort, writeUint, writeInt, writeString_eq,
    writeSystemTime_eq, writeRecSettingData_eq, writeVector_string_eq, List.append_assoc]
  rw [patchVal, writeIntInplace_spec]

def wfReserveData (v : ReserveData) : Prop :=
  wfStr v.title ∧ validDateTime v.start_time ∧ v.duration_second < 4294967296 ∧
  wfStr v.station_name ∧ v.onid < 65536 ∧ v.tsid < 65536 ∧ v.sid < 65536 ∧
  v.eid < 65536 ∧ wfStr v.comment ∧
  -2147483648 ≤ v.reserve_id ∧ v.reserve_id < 2147483648 ∧ v.overlap_mode < 256 ∧
  validDateTime v.start_time_epg ∧ wfRecSettingData v.rec_setting ∧
  (∀ x ∈ v.rec_file_name_list, wfStr x) ∧ v.rec_file_name_list.length < 2147483648 ∧
  ((v.rec_file_name_list.map encString).flatten).length + 8 < 2147483648 ∧
  (encReserveData v).length ≤ 2147483647

instance (v : ReserveData) : Decidable (wfReserveData v) := by
  unfold wfReserveData; infer_instance

theorem readReserveData_res_seg {v : ReserveData} (hwf : wfReserveData v)
    {rb : Nat} {rs : PyStr} {r1 r2 : Int}
    (hrb : rb < 256) (hrs : wfStr rs)
    (hr1a : -2147483648 ≤ r1) (hr1b : r1 < 2147483648)
    (hr2a : -2147483648 ≤ r2) (hr2b : r2 < 2147483648)
    (hlen : (encReserveDataRes v rb rs r1 r2).length ≤ 2147483647)
    {buf : List Nat} {pos size : Nat}
    (hseg : SegAt buf pos (encReserveDataRes v rb rs r1 r2))
    (hsz : pos + (encReserveDataRes v rb rs r1 r2).length ≤ size) :
    readReserveData buf pos size =
      .ok (v, pos + (encReserveDataRes v rb rs r1 r2).length) := by
  obtain ⟨bt, bst, bdur, bsn, bo, bts, bsi, bei, bc, bra, brb2, bov, bse, brs, bfl,
    bfn, bff, htot⟩ := hwf
  rw [encReserveDataRes, encStruct_length] at hsz hlen ⊢
  unfold encReserveDataRes at hseg
  have hbody := @readStructIntro_seg
    (encString v.title ++ (encSystemTime v.start_time ++
      (natToLE 4 v.duration_second ++ (encString v.station_name ++ (natToLE 2 v.onid ++
      (natToLE 2 v.tsid ++ (natToLE 2 v.sid ++ (natToLE 2 v.eid ++ (encString v.comment ++
      (intToLE4 v.reserve_id ++ (natToLE 1 rb ++ (natToLE 1 v.overlap_mode ++
      (encString rs ++ (encSystemTime v.start_time_epg ++
      (encRecSettingData v.rec_setting ++
      (intToLE4 r1 ++ (encVector encString v.rec_file_name_list ++
      intToLE4 r2)))))))))))))))))
    (by omega) buf pos size hseg (by rw [encStruct_length]; omega)
  unfold encStruct at hseg
  obtain ⟨hs0, hx⟩ := hseg.split
  rw [intToLE4_length] at hx
  obtain ⟨h1, hx⟩ := hx.split
  obtain ⟨h2, hx⟩ := hx.split
  obtain ⟨h3, hx⟩ := hx.split
  obtain ⟨h4, hx⟩ := hx.split
  obtain ⟨h5, hx⟩ := hx.split
  obtain ⟨h6, hx⟩ := hx.split
  obtain ⟨h7, hx⟩ := hx.split
  obtain ⟨h8, hx⟩ := hx.split
  obtain ⟨h9, hx⟩ := hx.split
  obtain ⟨h10, hx⟩ := hx.split
  obtain ⟨h11, hx⟩ := hx.split
  obtain ⟨h12, hx⟩ := hx.split
  obtain ⟨h13, hx⟩ := hx.split
  obtain ⟨h14, hx⟩ := hx.split
  obtain ⟨h15, hx⟩ := hx.split
  obtain ⟨h16, hx⟩ := hx.split
  obtain ⟨h17, h18⟩ := hx.split
  simp only [natToLE_length, intToLE4_length, encSystemTime_length] at h2 h3 h4 h5 h6 h7
  simp only [natToLE_length, intToLE4_length, encSystemTime_length] at h8 h9 h10 h11 h12
  simp only [natToLE_length, intToLE4_length, encSystemTime_length] at h13 h14 h15 h16
  simp only [natToLE_length, intToLE4_length, encSystemTime_length] at h17 h18
  simp only [List.length_append, natToLE_length, intToLE4_length,
    encSystemTime_length] at hsz htot
  unfold readReserveData
  rw [hbody, ok_bind]
  simp only
  rw [readString_seg bt.1 bt.2 h1
    (by simp only [List.length_append, natToLE_length, intToLE4_length,
      encSystemTime_length]; omega), ok_bind]
  simp only
  rw [readSystemTime_seg bst h2
    (by simp only [List.length_append, natToLE_length, intToLE4_length,
      encSystemTime_length]; omega), ok_bind]
  simp only
  rw [readUint_seg bdur h3
    (by simp only [List.length_append, natToLE_length, intToLE4_length,
      encSystemTime_length]; omega), ok_bind]
  simp only
  rw [readString_seg bsn.1 bsn.2 h4
    (by simp only [List.length_append, natToLE_length, intToLE4_length,
      encSystemTime_length]; omega), ok_bind]
  simp only
  rw [readUshort_seg bo h5
    (by simp only [List.length_append, natToLE_length, intToLE4_length,
      encSystemTime_length]; omega), ok_bind]
  simp only
  rw [readUshort_seg bts h6
    (by simp only [List.length_append, natToLE_length, intToLE4_length,
      encSystemTime_length]; omega), ok_bind]
  simp only
  rw [readUshort_seg bsi h7
    (by simp only [List.length_append, natToLE_length, intToLE4_length,
      encSystemTime_length]; omega), ok_bind]
  simp only
  rw [readUshort_seg bei h8
    (by simp only [List.length_append, natToLE_length, intToLE4_length,
      encSystemTime_length]; omega), ok_bind]
  simp only
  rw [readString_seg bc.1 bc.2 h9
    (by simp only [List.length_append, natToLE_length, intToLE4_length,
      encSystemTime_length]; omega), ok_bind]
  simp only
  rw [readInt_seg bra brb2 h10
    (by simp only [List.length_append, natToLE_length, intToLE4_length,
      encSystemTime_length]; omega), ok_bind]
  simp only
  rw [readByte_seg hrb h11
    (by simp only [List.length_append, natToLE_length, intToLE4_length,
      encSystemTime_length]; omega), ok_bind]
  simp only
  rw [readByte_seg bov h12
    (by simp only [List.length_append, natToLE_length, intToLE4_length,
      encSystemTime_length]; omega), ok_bind]
  simp only
  rw [readString_seg hrs.1 hrs.2 h13
    (by simp only [List.length_append, natToLE_length, intToLE4_length,
      encSystemTime_length]; omega), ok_bind]
  simp only
  rw [readSystemTime_seg bse h14
    (by simp only [List.length_append, natToLE_length, intToLE4_length,
      encSystemTime_length]; omega), ok_bind]
  simp only
  rw [readRecSettingData_seg brs h15
    (by simp only [List.length_append, natToLE_length, intToLE4_length,
      encSystemTime_length]; omega), ok_bind]
  simp only
  rw [readInt_seg hr1a hr1b h16
    (by simp only [List.length_append, natToLE_length, intToLE4_length,
      encSystemTime_length]; omega), ok_bind]
  simp only
  rw [readVector_string_seg v.rec_file_name_list bfl bfn bff h17
    (by simp only [List.length_append, natToLE_length, intToLE4_length,
      encSystemTime_length, encVector_length]; omega), ok_bind]
  simp only
  rw [readInt_seg hr2a hr2b h18
    (by simp only [List.length_append, natToLE_length, intToLE4_length,
      encSystemTime_length, encVector_length]; omega), ok_bind]
  exact ok_pair_eq _ _ _ _ rfl (by
    simp only [List.length_append, natToLE_length, intToLE4_length,
      encSystemTime_length]
    omega)

/-! ## In-band and_key marker round trip -/

theorem pyStartsWith_append (p r : PyStr) : pyStartsWith (p ++ r) p = true := by
  unfold pyStartsWith
  simp [List.take_left]

theorem pyRemovePre_append (p r : PyStr) : pyRemovePre (p ++ r) p = r := by
  unfold pyRemovePre
  simp [pyStartsWith_append, List.drop_left]

theorem pyRemovePre_of_false {s p : PyStr} (h : pyStartsWith s p = false) :
    pyRemovePre s p = s := by
  unfold pyRemovePre
  simp [h]

theorem pyStartsWith_head_ne {s p : PyStr} (hp : 0 < p.length)
    (h : s.getD 0 0 ≠ p.getD 0 0) : pyStartsWith s p = false := by
  unfold pyStartsWith
  cases s with
  | nil =>
    cases p with
    | nil => simp at hp
    | cons b m => simp
  | cons a l =>
    cases p with
    | nil => simp at hp
    | cons b m =>
      have hab : a ≠ b := by simpa using h
      simp [List.take_succ_cons, hab]

theorem caret_not_cMark (r : PyStr) : pyStartsWith (cMark ++ r) caretMark = false := by
  apply pyStartsWith_head_ne
  · decide
  · simp [cMark, caretMark]

theorem caret_not_dMark (r : PyStr) : pyStartsWith (dMarkHead ++ r) caretMark = false := by
  apply pyStartsWith_head_ne
  · decide
  · simp [dMarkHead, caretMark]

theorem cMark_not_dMark (r : PyStr) : pyStartsWith (dMarkHead ++ r) cMark = false := by
  apply pyStartsWith_head_ne
  · decide
  · simp [dMarkHead, cMark]

theorem decPad8_digits (n : Nat) : ∀ c ∈ decPad8 n, 48 ≤ c ∧ c ≤ 57 := by
  unfold decPad8
  intro c hc
  simp only [List.mem_cons, List.not_mem_nil, or_false] at hc
  rcases hc with rfl | rfl | rfl | rfl | rfl | rfl | rfl | rfl <;> omega

theorem decPad8_length (n : Nat) : (decPad8 n).length = 8 := by
  simp [decPad8]

theorem digitsToNat_dur (n : Nat) (hn : n < 100000000) :
    digitsToNat (49 :: decPad8 n) = 100000000 + n := by
  unfold digitsToNat decPad8
  simp only [List.foldl]
  omega

theorem durMarked_mark (n : Nat) (s : PyStr) :
    durMarked (dMarkHead ++ (decPad8 n ++ ([125] ++ s))) = true := by
  unfold durMarked
  have e1 : (13 : Nat) ≤ (dMarkHead ++ (decPad8 n ++ ([125] ++ s))).length := by
    simp [dMarkHead, decPad8]
  have e2 : (dMarkHead ++ (decPad8 n ++ ([125] ++ s))).getD 12 0 = 125 := rfl
  have e3 : (((dMarkHead ++ (decPad8 n ++ ([125] ++ s))).drop 4).take 8) = decPad8 n := rfl
  rw [pyStartsWith_append, e2, e3]
  simp only [Bool.and_eq_true, decide_eq_true_eq, List.all_eq_true]
  refine ⟨⟨⟨e1, True.intro⟩, True.intro⟩, ?_⟩
  intro c hc
  have hd := decPad8_digits n c hc
  omega

theorem dur_take9 (n : Nat) (s : PyStr) :
    ((dMarkHead ++ (decPad8 n ++ ([125] ++ s))).drop 3).take 9 = 49 :: decPad8 n := rfl

theorem dur_drop13 (n : Nat) (s : PyStr) :
    (dMarkHead ++ (decPad8 n ++ ([125] ++ s))).drop 13 = s := rfl

/-- one optional marker at the head of the composed and_key strips back to
the flag that produced it. -/
theorem strip_opt (b : Bool) (m rest : PyStr) (hne : pyStartsWith rest m = false) :
    pyStartsWith ((if b then m else []) ++ rest) m = b ∧
    pyRemovePre ((if b then m else []) ++ rest) m = rest := by
  cases b
  · simp only [Bool.false_eq_true, if_neg Bool.false_ne_true, List.nil_append]
    exact ⟨hne, pyRemovePre_of_false hne⟩
  · simp only [if_pos rfl]
    exact ⟨pyStartsWith_append m rest, pyRemovePre_append m rest⟩

theorem stripAndKey_composeAndKey (kd cs : Bool) (mi ma : Nat) (s : PyStr)
    (hmi : mi < 10000) (hma : ma < 10000)
    (h1 : pyStartsWith s caretMark = false)
    (h2 : pyStartsWith s cMark = false)
    (h3 : durMarked s = false) :
    stripAndKey (composeAndKey kd cs (mi * 10000 + ma) s) = (kd, cs, mi, ma, s) := by
  have hcd : mi * 10000 + ma < 100000000 := by omega
  have hX : composeAndKey kd cs (mi * 10000 + ma) s =
      (if kd then caretMark else []) ++ ((if cs then cMark else []) ++
        ((if 0 < mi * 10000 + ma then
            dMarkHead ++ (decPad8 (mi * 10000 + ma) ++ [125]) else []) ++ s)) := by
    unfold composeAndKey
    by_cases h : 0 < mi * 10000 + ma
    · simp only [gt_iff_lt, if_pos h, List.append_assoc]
    · simp only [gt_iff_lt, if_neg h, List.append_assoc]
  rw [hX]
  have hne1 : pyStartsWith ((if 0 < mi * 10000 + ma then
      dMarkHead ++ (decPad8 (mi * 10000 + ma) ++ [125]) else []) ++ s) caretMark =
      false := by
    by_cases h : 0 < mi * 10000 + ma
    · rw [if_pos h, List.append_assoc]
      exact caret_not_dMark _
    · rw [if_neg h, List.nil_append]
      exact h1
  have hne1c : pyStartsWith ((if 0 < mi * 10000 + ma then
      dMarkHead ++ (decPad8 (mi * 10000 + ma) ++ [125]) else []) ++ s) cMark =
      false := by
    by_cases h : 0 < mi * 10000 + ma
    · rw [if_pos h, List.append_assoc]
      exact cMark_not_dMark _
    · rw [if_neg h, List.nil_append]
      exact h2
  have hne2 : pyStartsWith ((if cs then cMark else []) ++
      ((if 0 < mi * 10000 + ma then
        dMarkHead ++ (decPad8 (mi * 10000 + ma) ++ [125]) else []) ++ s)) caretMark =
      false := by
    cases cs
    · simp only [Bool.false_eq_true, if_neg Bool.false_ne_true, List.nil_append]
      exact hne1
    · simp only [if_pos rfl]
      exact caret_not_cMark _
  obtain ⟨sw1, sr1⟩ := strip_opt kd caretMark _ hne2
  obtain ⟨sw2, sr2⟩ := strip_opt cs cMark _ hne1c
  unfold stripAndKey
  simp only [sw1, sr1, sw2, sr2]
  by_cases h : 0 < mi * 10000 + ma
  · simp only [if_pos h, List.append_assoc]
    rw [durMarked_mark, if_pos rfl, dur_take9, dur_drop13,
      digitsToNat_dur _ hcd]
    have hmi2 : (100000000 + (mi * 10000 + ma)) / 10000 % 10000 = mi := by omega
    have hma2 : (100000000 + (mi * 10000 + ma)) % 10000 = ma := by omega
    rw [hmi2, hma2]
  · simp only [if_neg h, List.nil_append]
    rw [h3]
    have hmi0 : mi = 0 := by omega
    have hma0 : ma = 0 := by omega
    simp only [if_neg Bool.false_ne_true, hmi0, hma0]

/-! ## SearchKeyInfo codec (v2 form, with chk_rec_end and chk_rec_day) -/

theorem chk_day_val (ns : Bool) (d : Nat) (hd : if ns then d < 10000 else d < 40000) :
    (if 40000 ≤ (if ns then d % 10000 + 40000 else d) then
      (if ns then d % 10000 + 40000 else d) % 10000
    else (if ns then d % 10000 + 40000 else d)) = d := by
  cases ns
  · simp only [Bool.false_eq_true, if_false] at hd ⊢
    rw [if_neg (by omega)]
  · simp only [if_true] at hd ⊢
    rw [if_pos (by omega)]
    omega

theorem chk_day_flag (ns : Bool) (d : Nat) (hd : if ns then d < 10000 else d < 40000) :
    decide (40000 ≤ (if ns then d % 10000 + 40000 else d)) = ns := by
  cases ns
  · simp only [Bool.false_eq_true, if_false] at hd ⊢
    simp
    omega
  · simp only [if_true] at hd ⊢
    simp

theorem chk_day_lt (ns : Bool) (d : Nat) (hd : if ns then d < 10000 else d < 40000) :
    (if ns then d % 10000 + 40000 else d) < 65536 := by
  cases ns
  · simp only [Bool.false_eq_true, if_false] at hd ⊢
    omega
  · simp only [if_true] at hd ⊢
    omega

def encSearchKeyInfo2 (v : SearchKeyInfo) : List Nat :=
  encStruct (encString (composeAndKey v.key_disabled v.case_sensitive
      ((v.chk_duration_min * 10000 + v.chk_duration_max) % 100000000) v.and_key) ++
    (encString v.not_key ++ (intToLE4 (if v.reg_exp_flag then 1 else 0) ++
    (intToLE4 (if v.title_only_flag then 1 else 0) ++
    (encVector encContentData v.content_list ++
    (encVector encSearchDateInfo v.date_list ++ (encVector intToLE8 v.service_list ++
    (encVector (natToLE 2) v.video_list ++ (encVector (natToLE 2) v.audio_list ++
    (natToLE 1 (if v.aimai_flag then 1 else 0) ++
    (natToLE 1 (if v.not_contet_flag then 1 else 0) ++
    (natToLE 1 (if v.not_date_flag then 1 else 0) ++ (natToLE 1 v.free_ca_flag ++
    (natToLE 1 (if v.chk_rec_end then 1 else 0) ++
    natToLE 2 (if v.chk_rec_no_service then v.chk_rec_day % 10000 + 40000
      else v.chk_rec_day)))))))))))))))

theorem writeSearchKeyInfo2_eq (buf : List Nat) (v : SearchKeyInfo) :
    writeSearchKeyInfo2 buf v = buf ++ encSearchKeyInfo2 v := by
  unfold writeSearchKeyInfo2 writeSearchKeyInfo encSearchKeyInfo2 encStruct
  simp only [if_pos rfl, if_true, writeByte, writeByteB, writeUshort, writeInt, writeIntB,
    writeString_eq, writeVector_content_eq, writeVector_date_eq, writeVector_long_eq,
    writeVector_ushort_eq, List.append_assoc]
  rw [patchVal, writeIntInplace_spec]

def wfSearchKeyInfo (v : SearchKeyInfo) : Prop :=
  wfStr v.and_key ∧ wfStr v.not_key ∧
  wfStr (composeAndKey v.key_disabled v.case_sensitive
    ((v.chk_duration_min * 10000 + v.chk_duration_max) % 100000000) v.and_key) ∧
  pyStartsWith v.and_key caretMark = false ∧
  pyStartsWith v.and_key cMark = false ∧
  durMarked v.and_key = false ∧
  v.chk_duration_min < 10000 ∧ v.chk_duration_max < 10000 ∧
  (∀ x ∈ v.content_list, wfContentData x) ∧ v.content_list.length < 2147483648 ∧
  ((v.content_list.map encContentData).flatten).length + 8 < 2147483648 ∧
  (∀ x ∈ v.date_list, wfSearchDateInfo x) ∧ v.date_list.length < 2147483648 ∧
  ((v.date_list.map encSearchDateInfo).flatten).length + 8 < 2147483648 ∧
  (∀ x ∈ v.service_list, -9223372036854775808 ≤ x ∧ x < 9223372036854775808) ∧
  v.service_list.length < 2147483648 ∧
  ((v.service_list.map intToLE8).flatten).length + 8 < 2147483648 ∧
  (∀ x ∈ v.video_list, x < 65536) ∧ v.video_list.length < 2147483648 ∧
  ((v.video_list.map (natToLE 2)).flatten).length + 8 < 2147483648 ∧
  (∀ x ∈ v.audio_list, x < 65536) ∧ v.audio_list.length < 2147483648 ∧
  ((v.audio_list.map (natToLE 2)).flatten).length + 8 < 2147483648 ∧
  v.free_ca_flag < 256 ∧
  (if v.chk_rec_no_service then v.chk_rec_day < 10000 else v.chk_rec_day < 40000) ∧
  (encSearchKeyInfo2 v).length ≤ 2147483647

instance (v : SearchKeyInfo) : Decidable (wfSearchKeyInfo v) := by
  unfold wfSearchKeyInfo; infer_instance

theorem readSearchKeyInfo_seg {v : SearchKeyInfo} (hwf : wfSearchKeyInfo v)
    {buf : List Nat} {pos size : Nat}
    (hseg : SegAt buf pos (encSearchKeyInfo2 v))
    (hsz : pos + (encSearchKeyInfo2 v).length ≤ size) :
    readSearchKeyInfo buf pos size = .ok (v, pos + (encSearchKeyInfo2 v).length) := by
  obtain ⟨bak, bnk, bck, bp1, bp2, bp3, bdmi, bdma, bcl, bcn, bcf, bdl, bdn, bdf,
    bsl, bsn, bsf, bvl, bvn, bvf, bal, ban, baf, bfc, bday, htot⟩ := hwf
  have hmod : (v.chk_duration_min * 10000 + v.chk_duration_max) % 100000000 =
      v.chk_duration_min * 10000 + v.chk_duration_max := Nat.mod_eq_of_lt (by omega)
  have hstrip : stripAndKey (composeAndKey v.key_disabled v.case_sensitive
      ((v.chk_duration_min * 10000 + v.chk_duration_max) % 100000000) v.and_key) =
      (v.key_disabled, v.case_sensitive, v.chk_duration_min, v.chk_duration_max,
        v.and_key) := by
    rw [hmod]
    exact stripAndKey_composeAndKey _ _ _ _ _ bdmi bdma bp1 bp2 bp3
  rw [encSearchKeyInfo2, encStruct_length] at hsz htot ⊢
  unfold encSearchKeyInfo2 at hseg
  have hbody := @readStructIntro_seg
    (encString (composeAndKey v.key_disabled v.case_sensitive
      ((v.chk_duration_min * 10000 + v.chk_duration_max) % 100000000) v.and_key) ++
    (encString v.not_key ++ (intToLE4 (if v.reg_exp_flag then 1 else 0) ++
    (intToLE4 (if v.title_only_flag then 1 else 0) ++
    (encVector encContentData v.content_list ++
    (encVector encSearchDateInfo v.date_list ++ (encVector intToLE8 v.service_list ++
    (encVector (natToLE 2) v.video_list ++ (encVector (natToLE 2) v.audio_list ++
    (natToLE 1 (if v.aimai_flag then 1 else 0) ++
    (natToLE 1 (if v.not_contet_flag then 1 else 0) ++
    (natToLE 1 (if v.not_date_flag then 1 else 0) ++ (natToLE 1 v.free_ca_flag ++
    (natToLE 1 (if v.chk_rec_end then 1 else 0) ++
    natToLE 2 (if v.chk_rec_no_service then v.chk_rec_day % 10000 + 40000
      else v.chk_rec_day)))))))))))))))
    (by omega) buf pos size hseg (by rw [encStruct_length]; omega)
  unfold encStruct at hseg
  obtain ⟨hs0, hx⟩ := hseg.split
  rw [intToLE4_length] at hx
  obtain ⟨h1, hx⟩ := hx.split
  obtain ⟨h2, hx⟩ := hx.split
  obtain ⟨h3, hx⟩ := hx.split
  obtain ⟨h4, hx⟩ := hx.split
  obtain ⟨h5, hx⟩ := hx.split
  obtain ⟨h6, hx⟩ := hx.split
  obtain ⟨h7, hx⟩ := hx.split
  obtain ⟨h8, hx⟩ := hx.split
  obtain ⟨h9, hx⟩ := hx.split
  obtain ⟨h10, hx⟩ := hx.split
  obtain ⟨h11, hx⟩ := hx.split
  obtain ⟨h12, hx⟩ := hx.split
  obtain ⟨h13, hx⟩ := hx.split
  obtain ⟨h14, h15⟩ := hx.split
  simp only [natToLE_length, intToLE4_length] at h2 h3 h4 h5 h6 h7 h8 h9 h10 h11 h12
  simp only [natToLE_length, intToLE4_length] at h13 h14 h15
  simp only [List.length_append, natToLE_length, intToLE4_length] at hsz htot
  unfold readSearchKeyInfo
  rw [hbody, ok_bind]
  simp only
  rw [readString_seg bck.1 bck.2 h1
    (by simp only [List.length_append, natToLE_length, intToLE4_length]; omega), ok_bind]
  simp only
  rw [hstrip]
  simp only
  rw [readString_seg bnk.1 bnk.2 h2
    (by simp only [List.length_append, natToLE_length, intToLE4_length]; omega), ok_bind]
  simp only
  rw [readInt_seg (ite_int_range _).1 (ite_int_range _).2 h3
    (by simp only [List.length_append, natToLE_length, intToLE4_length]; omega), ok_bind]
  simp only
  rw [readInt_seg (ite_int_range _).1 (ite_int_range _).2 h4
    (by simp only [List.length_append, natToLE_length, intToLE4_length]; omega), ok_bind]
  simp only
  rw [readVector_content_seg v.content_list bcl bcn bcf h5
    (by simp only [List.length_append, natToLE_length, intToLE4_length,
      encVector_length]; omega), ok_bind]
  simp only
  rw [readVector_date_seg v.date_list bdl bdn bdf h6
    (by simp only [List.length_append, natToLE_length, intToLE4_length,
      encVector_length]; omega), ok_bind]
  simp only
  rw [readVector_long_seg v.service_list bsl bsn bsf h7
    (by simp only [List.length_append, natToLE_length, intToLE4_length,
      encVector_length]; omega), ok_bind]
  simp only
  rw [readVector_ushort_seg v.video_list bvl bvn bvf h8
    (by simp only [List.length_append, natToLE_length, intToLE4_length,
      encVector_length]; omega), ok_bind]
  simp only
  rw [readVector_ushort_seg v.audio_list bal ban baf h9
    (by simp only [List.length_append, natToLE_length, intToLE4_length,
      encVector_length]; omega), ok_bind]
  simp only
  rw [readByte_seg (ite_nat_lt_256 _) h10
    (by simp only [List.length_append, natToLE_length, intToLE4_length,
      encVector_length]; omega), ok_bind]
  simp only
  rw [readByte_seg (ite_nat_lt_256 _) h11
    (by simp only [List.length_append, natToLE_length, intToLE4_length,
      encVector_length]; omega), ok_bind]
  simp only
  rw [readByte_seg (ite_nat_lt_256 _) h12
    (by simp only [List.length_append, natToLE_length, intToLE4_length,
      encVector_length]; omega), ok_bind]
  simp only
  rw [readByte_seg bfc h13
    (by simp only [List.length_append, natToLE_length, intToLE4_length,
      encVector_length]; omega), ok_bind]
  simp only
  rw [readByte_seg (ite_nat_lt_256 _) h14
    (by simp only [List.length_append, natToLE_length, intToLE4_length,
      encVector_length]; omega), ok_bind]
  simp only
  rw [readUshort_seg (chk_day_lt _ _ bday) h15
    (by simp only [List.length_append, natToLE_length, intToLE4_length,
      encVector_length]; omega), ok_bind]
  simp only
  rw [bne_ite_int, bne_ite_int, bne_ite_nat, bne_ite_nat, bne_ite_nat, bne_ite_nat,
    chk_day_val _ _ bday, chk_day_flag _ _ bday]
  exact ok_pair_eq _ _ _ _ rfl (by
    simp only [List.length_append, natToLE_length, intToLE4_length]
    omega)

/-! ## RecFileInfo codec (v2 layout, which carries the protect flag) -/

def encRecFileInfo2 (v : RecFileInfo) : List Nat :=
  encStruct (intToLE4 v.id ++ (encString v.rec_file_path ++ (encString v.title ++
    (encSystemTime v.start_time ++ (natToLE 4 v.duration_sec ++
    (encString v.service_name ++ (natToLE 2 v.onid ++ (natToLE 2 v.tsid ++
    (natToLE 2 v.sid ++ (natToLE 2 v.eid ++ (intToLE8 v.drops ++
    (intToLE8 v.scrambles ++ (intToLE4 v.rec_status ++
    (encSystemTime v.start_time_epg ++ (encString v.comment ++
    (encString v.program_info ++ (encString v.err_info ++
    natToLE 1 (if v.protect_flag then 1 else 0))))))))))))))))))

theorem writeRecFileInfo2_eq (buf : List Nat) (v : RecFileInfo) :
    writeRecFileInfo2 buf v = buf ++ encRecFileInfo2 v := by
  unfold writeRecFileInfo2 writeRecFileInfo encRecFileInfo2 encStruct
  simp only [if_pos rfl, if_true, writeByte, writeByteB, writeUshort, writeUint,
    writeInt, writeLong, writeString_eq, writeSystemTime_eq, List.append_assoc]
  rw [patchVal, writeIntInplace_spec]

def wfRecFileInfo (v : RecFileInfo) : Prop :=
  -2147483648 ≤ v.id ∧ v.id < 2147483648 ∧
  wfStr v.rec_file_path ∧ wfStr v.title ∧ validDateTime v.start_time ∧
  v.duration_sec < 4294967296 ∧ wfStr v.service_name ∧
  v.onid < 65536 ∧ v.tsid < 65536 ∧ v.sid < 65536 ∧ v.eid < 65536 ∧
  -9223372036854775808 ≤ v.drops ∧ v.drops < 9223372036854775808 ∧
  -9223372036854775808 ≤ v.scrambles ∧ v.scrambles < 9223372036854775808 ∧
  -2147483648 ≤ v.rec_status ∧ v.rec_status < 2147483648 ∧
  validDateTime v.start_time_epg ∧ wfStr v.comment ∧ wfStr v.program_info ∧
  wfStr v.err_info ∧ (encRecFileInfo2 v).length ≤ 2147483647

instance (v : RecFileInfo) : Decidable (wfRecFileInfo v) := by
  unfold wfRecFileInfo; infer_instance

theorem readRecFileInfo_seg {v : RecFileInfo} (hwf : wfRecFileInfo v)
    {buf : List Nat} {pos size : Nat}
    (hseg : SegAt buf pos (encRecFileInfo2 v))
    (hsz : pos + (encRecFileInfo2 v).length ≤ size) :
    readRecFileInfo buf pos size = .ok (v, pos + (encRecFileInfo2 v).length) := by
  obtain ⟨bia, bib, brp, bti, bst, bdu, bsn, bo, bts, bsi, bei, bda, bdb, bsa, bsb,
    bra, brb2, bse, bc, bpi, ber, htot⟩ := hwf
  rw [encRecFileInfo2, encStruct_length] at hsz htot ⊢
  unfold encRecFileInfo2 at hseg
  have hbody := @readStructIntro_seg
    (intToLE4 v.id ++ (encString v.rec_file_path ++ (encString v.title ++
    (encSystemTime v.start_time ++ (natToLE 4 v.duration_sec ++
    (encString v.service_name ++ (natToLE 2 v.onid ++ (natToLE 2 v.tsid ++
    (natToLE 2 v.sid ++ (natToLE 2 v.eid ++ (intToLE8 v.drops ++
    (intToLE8 v.scrambles ++ (intToLE4 v.rec_status ++
    (encSystemTime v.start_time_epg ++ (encString v.comment ++
    (encString v.program_info ++ (encString v.err_info ++
    natToLE 1 (if v.protect_flag then 1 else 0))))))))))))))))))
    (by omega) buf pos size hseg (by rw [encStruct_length]; omega)
  unfold encStruct at hseg
  obtain ⟨hs0, hx⟩ := hseg.split
  rw [intToLE4_length] at hx
  obtain ⟨h1, hx⟩ := hx.split
  obtain ⟨h2, hx⟩ := hx.split
  obtain ⟨h3, hx⟩ := hx.split
  obtain ⟨h4, hx⟩ := hx.split
  obtain ⟨h5, hx⟩ := hx.split
  obtain ⟨h6, hx⟩ := hx.split
  obtain ⟨h7, hx⟩ := hx.split
  obtain ⟨h8, hx⟩ := hx.split
  obtain ⟨h9, hx⟩ := hx.split
  obtain ⟨h10, hx⟩ := hx.split
  obtain ⟨h11, hx⟩ := hx.split
  obtain ⟨h12, hx⟩ := hx.split
  obtain ⟨h13, hx⟩ := hx.split
  obtain ⟨h14, hx⟩ := hx.split
  obtain ⟨h15, hx⟩ := hx.split
  obtain ⟨h16, hx⟩ := hx.split
  obtain ⟨h17, h18⟩ := hx.split
  simp only [natToLE_length, intToLE4_length, intToLE8_length,
    encSystemTime_length] at h2 h3 h4 h5 h6 h7 h8 h9 h10
  simp only [natToLE_length, intToLE4_length, intToLE8_length,
    encSystemTime_length] at h11 h12 h13 h14 h15 h16 h17 h18
  simp only [List.length_append, natToLE_length, intToLE4_length, intToLE8_length,
    encSystemTime_length] at hsz htot
  unfold readRecFileInfo
  rw [hbody, ok_bind]
  simp only
  rw [readInt_seg bia bib h1
    (by simp only [List.length_append, natToLE_length, intToLE4_length, intToLE8_length,
      encSystemTime_length]; omega), ok_bind]
  simp only
  rw [readString_seg brp.1 brp.2 h2
    (by simp only [List.length_append, natToLE_length, intToLE4_length, intToLE8_length,
      encSystemTime_length]; omega), ok_bind]
  simp only
  rw [readString_seg bti.1 bti.2 h3
    (by simp only [List.length_append, natToLE_length, intToLE4_length, intToLE8_length,
      encSystemTime_length]; omega), ok_bind]
  simp only
  rw [readSystemTime_seg bst h4
    (by simp only [List.length_append, natToLE_length, intToLE4_length, intToLE8_length,
      encSystemTime_length]; omega), ok_bind]
  simp only
  rw [readUint_seg bdu h5
    (by simp only [List.length_append, natToLE_length, intToLE4_length, intToLE8_length,
      encSystemTime_length]; omega), ok_bind]
  simp only
  rw [readString_seg bsn.1 bsn.2 h6
    (by simp only [List.length_append, natToLE_length, intToLE4_length, intToLE8_length,
      encSystemTime_length]; omega), ok_bind]
  simp only
  rw [readUshort_seg bo h7
    (by simp only [List.length_append, natToLE_length, intToLE4_length, intToLE8_length,
      encSystemTime_length]; omega), ok_bind]
  simp only
  rw [readUshort_seg bts h8
    (by simp only [List.length_append, natToLE_length, intToLE4_length, intToLE8_length,
      encSystemTime_length]; omega), ok_bind]
  simp only
  rw [readUshort_seg bsi h9
    (by simp only [List.length_append, natToLE_length, intToLE4_length, intToLE8_length,
      encSystemTime_length]; omega), ok_bind]
  simp only
  rw [readUshort_seg bei h10
    (by simp only [List.length_append, natToLE_length, intToLE4_length, intToLE8_length,
      encSystemTime_length]; omega), ok_bind]
  simp only
  rw [readLong_seg bda bdb h11
    (by simp only [List.length_append, natToLE_length, intToLE4_length, intToLE8_length,
      encSystemTime_length]; omega), ok_bind]
  simp only
  rw [readLong_seg bsa bsb h12
    (by simp only [List.length_append, natToLE_length, intToLE4_length, intToLE8_length,
      encSystemTime_length]; omega), ok_bind]
  simp only
  rw [readInt_seg bra brb2 h13
    (by simp only [List.length_append, natToLE_length, intToLE4_length, intToLE8_length,
      encSystemTime_length]; omega), ok_bind]
  simp only
  rw [readSystemTime_seg bse h14
    (by simp only [List.length_append, natToLE_length, intToLE4_length, intToLE8_length,
      encSystemTime_length]; omega), ok_bind]
  simp only
  rw [readString_seg bc.1 bc.2 h15
    (by simp only [List.length_append, natToLE_length, intToLE4_length, intToLE8_length,
      encSystemTime_length]; omega), ok_bind]
  simp only
  rw [readString_seg bpi.1 bpi.2 h16
    (by simp only [List.length_append, natToLE_length, intToLE4_length, intToLE8_length,
      encSystemTime_length]; omega), ok_bind]
  simp only
  rw [readString_seg ber.1 ber.2 h17
    (by simp only [List.length_append, natToLE_length, intToLE4_length, intToLE8_length,
      encSystemTime_length]; omega), ok_bind]
  simp only
  rw [readByte_seg (ite_nat_lt_256 _) h18
    (by simp only [List.length_append, natToLE_length, intToLE4_length, intToLE8_length,
      encSystemTime_length]; omega), ok_bind]
  simp only
  rw [bne_ite_nat]
  exact ok_pair_eq _ _ _ _ rfl (by
    simp only [List.length_append, natToLE_length, intToLE4_length, intToLE8_length,
      encSystemTime_length]
    omega)

/-! ## AutoAddData and ManualAutoAddData codecs -/

def encAutoAddData (v : AutoAddData) : List Nat :=
  encStruct (intToLE4 v.data_id ++ (encSearchKeyInfo2 v.search_info ++
    (encRecSettingData v.rec_setting ++ intToLE4 v.add_count)))

theorem writeAutoAddData_eq (buf : List Nat) (v : AutoAddData) :
    writeAutoAddData buf v = buf ++ encAutoAddData v := by
  unfold writeAutoAddData encAutoAddData encStruct
  simp only [writeInt, writeSearchKeyInfo2_eq, writeRecSettingData_eq,
    List.append_assoc]
  rw [patchVal, writeIntInplace_spec]

def wfAutoAddData (v : AutoAddData) : Prop :=
  -2147483648 ≤ v.data_id ∧ v.data_id < 2147483648 ∧
  wfSearchKeyInfo v.search_info ∧ wfRecSettingData v.rec_setting ∧
  -2147483648 ≤ v.add_count ∧ v.add_count < 2147483648 ∧
  (encAutoAddData v).length ≤ 2147483647

instance (v : AutoAddData) : Decidable (wfAutoAddData v) := by
  unfold wfAutoAddData; infer_instance

theorem readAutoAddData_seg {v : AutoAddData} (hwf : wfAutoAddData v)
    {buf : List Nat} {pos size : Nat}
    (hseg : SegAt buf pos (encAutoAddData v))
    (hsz : pos + (encAutoAddData v).length ≤ size) :
    readAutoAddData buf pos size = .ok (v, pos + (encAutoAddData v).length) := by
  obtain ⟨bia, bib, bsk, brs, bca, bcb, htot⟩ := hwf
  rw [encAutoAddData, encStruct_length] at hsz htot ⊢
  unfold encAutoAddData at hseg
  have hbody := @readStructIntro_seg
    (intToLE4 v.data_id ++ (encSearchKeyInfo2 v.search_info ++
      (encRecSettingData v.rec_setting ++ intToLE4 v.add_count)))
    (by omega) buf pos size hseg (by rw [encStruct_length]; omega)
  unfold encStruct at hseg
  obtain ⟨hs0, hx⟩ := hseg.split
  rw [intToLE4_length] at hx
  obtain ⟨h1, hx⟩ := hx.split
  obtain ⟨h2, hx⟩ := hx.split
  obtain ⟨h3, h4⟩ := hx.split
  simp only [natToLE_length, intToLE4_length] at h2 h3 h4
  simp only [List.length_append, natToLE_length, intToLE4_length] at hsz htot
  unfold readAutoAddData
  rw [hbody, ok_bind]
  simp only
  rw [readInt_seg bia bib h1
    (by simp only [List.length_append, intToLE4_length]; omega), ok_bind]
  simp only
  rw [readSearchKeyInfo_seg bsk h2
    (by simp only [List.length_append, intToLE4_length]; omega), ok_bind]
  simp only
  rw [readRecSettingData_seg brs h3
    (by simp only [List.length_append, intToLE4_length]; omega), ok_bind]
  simp only
  rw [readInt_seg bca bcb h4
    (by simp only [List.length_append, intToLE4_length]; omega), ok_bind]
  exact ok_pair_eq _ _ _ _ rfl (by
    simp only [List.length_append, intToLE4_length]
    omega)

def encManualAutoAddData (v : ManualAutoAddData) : List Nat :=
  encStruct (intToLE4 v.data_id ++ (natToLE 1 v.day_of_week_flag ++
    (natToLE 4 v.start_time ++ (natToLE 4 v.duration_second ++ (encString v.title ++
    (encString v.station_name ++ (natToLE 2 v.onid ++ (natToLE 2 v.tsid ++
    (natToLE 2 v.sid ++ encRecSettingData v.rec_setting)))))))))

theorem writeManualAutoAddData_eq (buf : List Nat) (v : ManualAutoAddData) :
    writeManualAutoAddData buf v = buf ++ encManualAutoAddData v := by
  unfold writeManualAutoAddData encManualAutoAddData encStruct
  simp only [writeInt, writeByte, writeUint, writeUshort, writeString_eq,
    writeRecSettingData_eq, List.append_assoc]
  rw [patchVal, writeIntInplace_spec]

def wfManualAutoAddData (v : ManualAutoAddData) : Prop :=
  -2147483648 ≤ v.data_id ∧ v.data_id < 2147483648 ∧
  v.day_of_week_flag < 256 ∧ v.start_time < 4294967296 ∧
  v.duration_second < 4294967296 ∧ wfStr v.title ∧ wfStr v.station_name ∧
  v.onid < 65536 ∧ v.tsid < 65536 ∧ v.sid < 65536 ∧
  wfRecSettingData v.rec_setting ∧ (encManualAutoAddData v).length ≤ 2147483647

instance (v : ManualAutoAddData) : Decidable (wfManualAutoAddData v) := by
  unfold wfManualAutoAddData; infer_instance

theorem readManualAutoAddData_seg {v : ManualAutoAddData} (hwf : wfManualAutoAddData v)
    {buf : List Nat} {pos size : Nat}
    (hseg : SegAt buf pos (encManualAutoAddData v))
    (hsz : pos + (encManualAutoAddData v).length ≤ size) :
    readManualAutoAddData buf pos size =
      .ok (v, pos + (encManualAutoAddData v).length) := by
  obtain ⟨bia, bib, bdw, bst, bdu, bti, bsn, bo, bts, bsi, brs, htot⟩ := hwf
  rw [encManualAutoAddData, encStruct_length] at hsz htot ⊢
  unfold encManualAutoAddData at hseg
  have hbody := @readStructIntro_seg
    (intToLE4 v.data_id ++ (natToLE 1 v.day_of_week_flag ++
      (natToLE 4 v.start_time ++ (natToLE 4 v.duration_second ++ (encString v.title ++
      (encString v.station_name ++ (natToLE 2 v.onid ++ (natToLE 2 v.tsid ++
      (natToLE 2 v.sid ++ encRecSettingData v.rec_setting)))))))))
    (by omega) buf pos size hseg (by rw [encStruct_length]; omega)
  unfold encStruct at hseg
  obtain ⟨hs0, hx⟩ := hseg.split
  rw [intToLE4_length] at hx
  obtain ⟨h1, hx⟩ := hx.split
  obtain ⟨h2, hx⟩ := hx.split
  obtain ⟨h3, hx⟩ := hx.split
  obtain ⟨h4, hx⟩ := hx.split
  obtain ⟨h5, hx⟩ := hx.split
  obtain ⟨h6, hx⟩ := hx.split
  obtain ⟨h7, hx⟩ := hx.split
  obtain ⟨h8, hx⟩ := hx.split
  obtain ⟨h9, h10⟩ := hx.split
  simp only [natToLE_length, intToLE4_length] at h2 h3 h4 h5 h6 h7 h8 h9 h10
  simp only [List.length_append, natToLE_length, intToLE4_length] at hsz htot
  unfold readManualAutoAddData
  rw [hbody, ok_bind]
  simp only
  rw [readInt_seg bia bib h1
    (by simp only [List.length_append, natToLE_length, intToLE4_length]; omega), ok_bind]
  simp only
  rw [readByte_seg bdw h2
    (by simp only [List.length_append, natToLE_length, intToLE4_length]; omega), ok_bind]
  simp only
  rw [readUint_seg bst h3
    (by simp only [List.length_append, natToLE_length, intToLE4_length]; omega), ok_bind]
  simp only
  rw [readUint_seg bdu h4
    (by simp only [List.length_append, natToLE_length, intToLE4_length]; omega), ok_bind]
  simp only
  rw [readString_seg bti.1 bti.2 h5
    (by simp only [List.length_append, natToLE_length, intToLE4_length]; omega), ok_bind]
  simp only
  rw [readString_seg bsn.1 bsn.2 h6
    (by simp only [List.length_append, natToLE_length, intToLE4_length]; omega), ok_bind]
  simp only
  rw [readUshort_seg bo h7
    (by simp only [List.length_append, natToLE_length, intToLE4_length]; omega), ok_bind]
  simp only
  rw [readUshort_seg bts h8
    (by simp only [List.length_append, natToLE_length, intToLE4_length]; omega), ok_bind]
  simp only
  rw [readUshort_seg bsi h9
    (by simp only [List.length_append, natToLE_length, intToLE4_length]; omega), ok_bind]
  simp only
  rw [readRecSettingData_seg brs h10
    (by simp only [List.length_append, natToLE_length, intToLE4_length]; omega), ok_bind]
  exact ok_pair_eq _ _ _ _ rfl (by
    simp only [List.length_append, natToLE_length, intToLE4_length]
    omega)

/-! ## Shared material for the claim checks: decidable equality of reader
results, concrete records and buffers, and small reduction lemmas. -/

instance {e a : Type _} [DecidableEq e] [DecidableEq a] : DecidableEq (Except e a) :=
  fun x y =>
    match x, y with
    | .ok u, .ok v =>
      if h : u = v then isTrue (by rw [h]) else isFalse (by intro hc; cases hc; exact h rfl)
    | .error u, .error v =>
      if h : u = v then isTrue (by rw [h]) else isFalse (by intro hc; cases hc; exact h rfl)
    | .ok _, .error _ => isFalse (by intro hc; cases hc)
    | .error _, .ok _ => isFalse (by intro hc; cases hc)

theorem SegAt_self (l : List Nat) : SegAt l 0 l := by
  simp [SegAt]

theorem readInt_ok_pos {buf : List Nat} {pos size : Nat} {v : Int} {q : Nat}
    (h : readInt buf pos size = .ok (v, q)) : q = pos + 4 := by
  unfold readInt at h
  split at h
  · simp at h
  · simp only [Except.ok.injEq, Prod.mk.injEq] at h
    exact h.2.symm

/-- a SearchKeyInfo whose bare and_key text is itself the caret marker: the
round trip of claim C2 fails on it. -/
def skiBad : SearchKeyInfo :=
  ⟨caretMark, [], false, false, false, false, [], [], [], [], [],
   false, false, false, 0, false, 0, false, 0, 0⟩

def rsZero : RecSettingData :=
  ⟨0, 0, false, 0, false, [], [], 0, false, none, none, false, 0, 0, []⟩

def rdZero : ReserveData :=
  ⟨[], ⟨2020, 1, 1, 0, 0, 0⟩, 0, [], 0, 0, 0, 0, [], 0, 0, ⟨2020, 1, 1, 0, 0, 0⟩,
   rsZero, []⟩

/-- the ReserveData layout claim C8 describes, modelled from the spec's
words: exactly three reserved slots (a zero byte, an empty string and a
single zero int) and no fourth one after the file-name vector. -/
def encReserveDataSpec3 (v : ReserveData) : List Nat :=
  encStruct (encString v.title ++ (encSystemTime v.start_time ++
    (natToLE 4 v.duration_second ++ (encString v.station_name ++ (natToLE 2 v.onid ++
    (natToLE 2 v.tsid ++ (natToLE 2 v.sid ++ (natToLE 2 v.eid ++ (encString v.comment ++
    (intToLE4 v.reserve_id ++ (natToLE 1 0 ++ (natToLE 1 v.overlap_mode ++
    (encString [] ++ (encSystemTime v.start_time_epg ++ (encRecSettingData v.rec_setting ++
    (intToLE4 0 ++ encVector encString v.rec_file_name_list))))))))))))))))

/-- an EnumService response whose first ServiceInfo carries a one-byte
UTF-16 string payload: structurally well formed, but the decode fails. -/
def badSvcBuf : List Nat :=
  [27, 0, 0, 0, 1, 0, 0, 0, 19, 0, 0, 0, 1, 0, 2, 0, 3, 0, 0, 0, 7, 0, 0, 0, 65, 0, 0]

def keyC10 : PyStr := [48, 48, 48, 49, 48, 48, 48, 65]

def lineA : PyStr := keyC10 ++ [61, 120]

def lineB : PyStr := keyC10 ++ [61, 53]

def sC10 : PyStr := lineA ++ [10] ++ lineB

theorem enumReserve_ver (rbuf : List Nat) (ver pos : Nat)
    (hu : readUshort rbuf 0 rbuf.length = .ok (ver, pos)) :
    enumReserveOfResponse (some CMD_SUCCESS) rbuf =
      if CMD_VER ≤ ver then
        match readVector readReserveData rbuf pos rbuf.length with
        | .ok (v, _) => .ok (some v)
        | .error .readError => .ok none
        | .error .decodeError => .error .decodeError
      else .ok none := by
  unfold enumReserveOfResponse
  rw [if_pos rfl, hu]

theorem logoIdScan_stop (target line : PyStr) (rest : List PyStr) (k v1 : PyStr)
    (hkv : pySplitOnce 61 line = some (k, v1))
    (hk : asciiUpper (pyStrip k) = target)
    (hv : pyParseInt (pyStrip v1) = none) :
    logoIdScan target (line :: rest) = -1 := by
  simp only [logoIdScan, hkv, hk, hv, eq_self_iff_true, if_true]

/-! ## The claims -/

/-- C1: for every element codec, a successful __readVector parse leaves the
cursor exactly at the vector's start plus the 32-bit total size read there,
whatever the element decoding consumed. -/
theorem C1_vector_cursor_snap {α : Type} (f : List Nat → Nat → Nat → RdRes α)
    (buf : List Nat) (pos size : Nat) (l : List α) (p : Nat)
    (h : readVector f buf pos size = .ok (l, p)) :
    ∃ vs : Int, readInt buf pos size = .ok (vs, pos + 4) ∧ 8 ≤ vs ∧
      (p : Int) = (pos : Int) + vs := by
  unfold readVector at h
  cases h1 : readInt buf pos size with
  | error e => rw [h1, error_bind] at h; simp at h
  | ok w =>
    obtain ⟨vs, q1⟩ := w
    obtain rfl := readInt_ok_pos h1
    rw [h1, ok_bind] at h
    simp only at h
    cases h2 : readInt buf (pos + 4) size with
    | error e => rw [h2, error_bind] at h; simp at h
    | ok w2 =>
      obtain ⟨vc, q2⟩ := w2
      obtain rfl := readInt_ok_pos h2
      rw [h2, ok_bind] at h
      simp only at h
      split at h
      · simp at h
      · rename_i hg
        push_neg at hg
        cases hvec : readVecElems f buf (pos + 4 + 4 + (vs - 8).toNat) vc.toNat
            (pos + 4 + 4) with
        | error e => rw [hvec, error_bind] at h; simp at h
        | ok r =>
          obtain ⟨lv, pv⟩ := r
          rw [hvec, ok_bind] at h
          simp only [Except.ok.injEq, Prod.mk.injEq] at h
          refine ⟨vs, rfl, by omega, ?_⟩
          obtain ⟨-, hp⟩ := h
          omega

/-- witness for C1 on a vector with one trailing padding byte: one one-byte
element, total size 10, cursor snapped to 10. -/
theorem C1_vector_cursor_snap_witness :
    readVector readByte [10, 0, 0, 0, 1, 0, 0, 0, 5, 7] 0 10 = .ok ([5], 10) ∧
    (∃ vs : Int, readInt [10, 0, 0, 0, 1, 0, 0, 0, 5, 7] 0 10 = .ok (vs, 0 + 4) ∧
      8 ≤ vs ∧ ((10 : Nat) : Int) = ((0 : Nat) : Int) + vs) :=
  ⟨by decide, C1_vector_cursor_snap readByte [10, 0, 0, 0, 1, 0, 0, 0, 5, 7] 0 10 [5] 10
    (by decide)⟩

/-- C2 (corrected): read-after-write is the identity for every record type
with both a reader and a writer, on well-formed values whose and_key text
does not itself start with one of the in-band markers; the original claim's
unconditional round trip fails on such marker-colliding values. -/
theorem C2_record_round_trip :
    (∀ v : ContentData, wfContentData v →
      readContentData (writeContentData [] v) 0 (writeContentData [] v).length =
        .ok (v, (writeContentData [] v).length)) ∧
    (∀ v : SearchDateInfo, wfSearchDateInfo v →
      readSearchDateInfo (writeSearchDateInfo [] v) 0 (writeSearchDateInfo [] v).length =
        .ok (v, (writeSearchDateInfo [] v).length)) ∧
    (∀ v : RecFileSetInfo, wfRecFileSetInfo v →
      readRecFileSetInfo (writeRecFileSetInfo [] v) 0 (writeRecFileSetInfo [] v).length =
        .ok (v, (writeRecFileSetInfo [] v).length)) ∧
    (∀ v : RecSettingData, wfRecSettingData v →
      readRecSettingData (writeRecSettingData [] v) 0 (writeRecSettingData [] v).length =
        .ok (v, (writeRecSettingData [] v).length)) ∧
    (∀ v : ReserveData, wfReserveData v →
      readReserveData (writeReserveData [] v) 0 (writeReserveData [] v).length =
        .ok (v, (writeReserveData [] v).length)) ∧
    (∀ v : RecFileInfo, wfRecFileInfo v →
      readRecFileInfo (writeRecFileInfo2 [] v) 0 (writeRecFileInfo2 [] v).length =
        .ok (v, (writeRecFileInfo2 [] v).length)) ∧
    (∀ v : SearchKeyInfo, wfSearchKeyInfo v →
      readSearchKeyInfo (writeSearchKeyInfo2 [] v) 0 (writeSearchKeyInfo2 [] v).length =
        .ok (v, (writeSearchKeyInfo2 [] v).length)) ∧
    (∀ v : AutoAddData, wfAutoAddData v →
      readAutoAddData (writeAutoAddData [] v) 0 (writeAutoAddData [] v).length =
        .ok (v, (writeAutoAddData [] v).length)) ∧
    (∀ v : ManualAutoAddData, wfManualAutoAddData v →
      readManualAutoAddData (writeManualAutoAddData [] v) 0
          (writeManualAutoAddData [] v).length =
        .ok (v, (writeManualAutoAddData [] v).length)) := by
  refine ⟨?_, ?_, ?_, ?_, ?_, ?_, ?_, ?_, ?_⟩
  · intro v hwf
    rw [writeContentData_eq, List.nil_append]
    have h := readContentData_seg hwf.1 hwf.2 (SegAt_self (encContentData v))
      (show 0 + (encContentData v).length ≤ (encContentData v).length by omega)
    simpa using h
  · intro v hwf
    rw [writeSearchDateInfo_eq, List.nil_append]
    have h := readSearchDateInfo_seg hwf (SegAt_self (encSearchDateInfo v))
      (show 0 + (encSearchDateInfo v).length ≤ (encSearchDateInfo v).length by omega)
    simpa using h
  · intro v hwf
    rw [writeRecFileSetInfo_eq, List.nil_append]
    have h := readRecFileSetInfo_seg hwf (SegAt_self (encRecFileSetInfo v))
      (show 0 + (encRecFileSetInfo v).length ≤ (encRecFileSetInfo v).length by omega)
    simpa using h
  · intro v hwf
    rw [writeRecSettingData_eq, List.nil_append]
    have h := readRecSettingData_seg hwf (SegAt_self (encRecSettingData v))
      (show 0 + (encRecSettingData v).length ≤ (encRecSettingData v).length by omega)
    simpa using h
  · intro v hwf
    rw [writeReserveData_eq, List.nil_append]
    unfold encReserveData
    have htot : (encReserveDataRes v 0 [] 0 0).length ≤ 2147483647 := by
      obtain ⟨-, -, -, -, -, -, -, -, -, -, -, -, -, -, -, -, -, h⟩ := hwf
      exact h
    have h := readReserveData_res_seg hwf (by omega) wfStr_nil (by omega) (by omega)
      (by omega) (by omega) htot (SegAt_self (encReserveDataRes v 0 [] 0 0))
      (show 0 + (encReserveDataRes v 0 [] 0 0).length ≤
        (encReserveDataRes v 0 [] 0 0).length by omega)
    simpa using h
  · intro v hwf
    rw [writeRecFileInfo2_eq, List.nil_append]
    have h := readRecFileInfo_seg hwf (SegAt_self (encRecFileInfo2 v))
      (show 0 + (encRecFileInfo2 v).length ≤ (encRecFileInfo2 v).length by omega)
    simpa using h
  · intro v hwf
    rw [writeSearchKeyInfo2_eq, List.nil_append]
    have h := readSearchKeyInfo_seg hwf (SegAt_self (encSearchKeyInfo2 v))
      (show 0 + (encSearchKeyInfo2 v).length ≤ (encSearchKeyInfo2 v).length by omega)
    simpa using h
  · intro v hwf
    rw [writeAutoAddData_eq, List.nil_append]
    have h := readAutoAddData_seg hwf (SegAt_self (encAutoAddData v))
      (show 0 + (encAutoAddData v).length ≤ (encAutoAddData v).length by omega)
    simpa using h
  · intro v hwf
    rw [writeManualAutoAddData_eq, List.nil_append]
    have h := readManualAutoAddData_seg hwf (SegAt_self (encManualAutoAddData v))
      (show 0 + (encManualAutoAddData v).length ≤ (encManualAutoAddData v).length
        by omega)
    simpa using h

/-- witness for C2 on a concrete ContentData value. -/
theorem C2_record_round_trip_witness :
    wfContentData ⟨171, 205⟩ ∧
    readContentData (writeContentData [] ⟨171, 205⟩) 0
        (writeContentData [] ⟨171, 205⟩).length =
      .ok (⟨171, 205⟩, (writeContentData [] ⟨171, 205⟩).length) :=
  ⟨by decide, C2_record_round_trip.1 ⟨171, 205⟩ (by decide)⟩

/-- counterexample to C2 as stated: on a record whose and_key text is the
caret marker itself, reading back the written bytes flips key_disabled and
loses the text, so the unconditional round trip fails. -/
theorem C2_record_round_trip_cex :
    readSearchKeyInfo (writeSearchKeyInfo2 [] skiBad) 0
        (writeSearchKeyInfo2 [] skiBad).length ≠
      .ok (skiBad, (writeSearchKeyInfo2 [] skiBad).length) := by decide

/-- C3 (corrected): the internal ReadError of a structural parse failure is
converted to the no-result outcome at the facade boundary and never escapes;
a UnicodeDecodeError from string decoding, however, is not caught. -/
theorem C3_facade_read_error (ret : Option Int) (rbuf : List Nat) :
    enumServiceOfResponse ret rbuf ≠ .error .readError ∧
    enumReserveOfResponse ret rbuf ≠ .error .readError ∧
    (readVector readServiceInfo rbuf 0 rbuf.length = .error .readError →
      enumServiceOfResponse ret rbuf = .ok none) := by
  refine ⟨?_, ?_, ?_⟩
  · intro hc
    unfold enumServiceOfResponse at hc
    split at hc
    · split at hc
      · simp at hc
      · simp at hc
      · simp at hc
    · simp at hc
  · intro hc
    unfold enumReserveOfResponse at hc
    split at hc
    · split at hc
      · split at hc
        · simp at hc
        · rename_i e he hne
          exact hne (Except.error.inj hc)
      · split at hc
        · split at hc
          · simp at hc
          · simp at hc
          · simp at hc
        · simp at hc
    · simp at hc
  · intro hv
    unfold enumServiceOfResponse
    by_cases hr : ret = some CMD_SUCCESS
    · rw [if_pos hr, hv]
    · rw [if_neg hr]

/-- witness for C3: the empty payload is a structural parse failure and the
facade yields the no-result outcome. -/
theorem C3_facade_read_error_witness :
    readVector readServiceInfo [] 0 0 = .error .readError ∧
    enumServiceOfResponse (some 1) [] = .ok none :=
  ⟨by decide, (C3_facade_read_error (some 1) []).2.2 (by decide)⟩

/-- counterexample to C3 as stated: a structurally well-formed response whose
string payload fails UTF-16 decoding makes the facade raise, so not every
parser exception is converted to the no-result outcome. -/
theorem C3_facade_read_error_cex :
    enumServiceOfResponse (some CMD_SUCCESS) badSvcBuf = .error .decodeError := by decide

/-- C4: a v2 response whose leading 16-bit version is below CMD_VER yields
the no-result outcome, and one at or above it is decoded normally. -/
theorem C4_v2_version_gate (rbuf : List Nat) (ver pos : Nat)
    (hu : readUshort rbuf 0 rbuf.length = .ok (ver, pos)) :
    (ver < CMD_VER → enumReserveOfResponse (some CMD_SUCCESS) rbuf = .ok none) ∧
    (CMD_VER ≤ ver → ∀ (v : List ReserveData) (q : Nat),
      readVector readReserveData rbuf pos rbuf.length = .ok (v, q) →
      enumReserveOfResponse (some CMD_SUCCESS) rbuf = .ok (some v)) := by
  constructor
  · intro hlt
    rw [enumReserve_ver rbuf ver pos hu, if_neg (by omega)]
  · intro hge v q hv
    rw [enumReserve_ver rbuf ver pos hu, if_pos hge, hv]

/-- witness for C4: version 4 yields the no-result outcome, version 5 with an
empty reserve vector yields the empty list. -/
theorem C4_v2_version_gate_witness :
    enumReserveOfResponse (some CMD_SUCCESS) [4, 0] = .ok none ∧
    enumReserveOfResponse (some CMD_SUCCESS) [5, 0, 8, 0, 0, 0, 0, 0, 0, 0] =
      .ok (some []) :=
  ⟨(C4_v2_version_gate [4, 0] 4 2 (by decide)).1 (by decide),
   (C4_v2_version_gate [5, 0, 8, 0, 0, 0, 0, 0, 0, 0] 5 2 (by decide)).2 (by decide)
     [] 10 (by decide)⟩

/-- C5 (corrected): the 16-bit nibble fields are byte-swapped on the wire, so
writing content_nibble 0xAB, user_nibble 0xCD emits 00 AB 00 CD after the
struct intro, and reading those bytes yields the original values back. -/
theorem C5_content_nibble_bytes :
    writeContentData [] ⟨171, 205⟩ = [8, 0, 0, 0] ++ [0, 171, 0, 205] ∧
    readContentData ([8, 0, 0, 0] ++ [0, 171, 0, 205]) 0 8 = .ok (⟨171, 205⟩, 8) := by
  decide

/-- counterexample to C5 as stated: the writer does not emit AB 00 CD 00
after the intro, and reading AB 00 CD 00 does not yield 0xAB and 0xCD. -/
theorem C5_content_nibble_bytes_cex :
    writeContentData [] ⟨171, 205⟩ ≠ [8, 0, 0, 0] ++ [171, 0, 205, 0] ∧
    readContentData ([8, 0, 0, 0] ++ [171, 0, 205, 0]) 0 8 ≠ .ok (⟨171, 205⟩, 8) := by
  decide

/-- C6 (corrected): the EnumService opcode is 1021 = 0x03FD, so the no-payload
request frame is FD 03 00 00 00 00 00 00; the empty-vector success response
yields the empty list. -/
theorem C6_enum_service_frame :
    sendCmdBuf CMD_EPG_SRV_ENUM_SERVICE (fun b => b) = [253, 3, 0, 0, 0, 0, 0, 0] ∧
    enumServiceOfResponse (some CMD_SUCCESS) [8, 0, 0, 0, 0, 0, 0, 0] =
      .ok (some []) := by
  decide

/-- counterexample to C6 as stated: the request frame is not
15 04 00 00 00 00 00 00. -/
theorem C6_enum_service_frame_cex :
    sendCmdBuf CMD_EPG_SRV_ENUM_SERVICE (fun b => b) ≠ [21, 4, 0, 0, 0, 0, 0, 0] := by
  decide

/-- C7: with key_disabled, case_sensitive, chk_duration_min 1 and
chk_duration_max 2, the writer prepends the markers caret-999, C-999 and
D-100010002 in that order, and the reader strips them in the same order,
recovering every field, for any bare and_key free of the markers. -/
theorem C7_and_key_markers (s : PyStr)
    (h1 : pyStartsWith s caretMark = false)
    (h2 : pyStartsWith s cMark = false)
    (h3 : durMarked s = false) :
    composeAndKey true true ((1 * 10000 + 2) % 100000000) s =
      caretMark ++ cMark ++ dMarkHead ++ decPad8 10002 ++ [125] ++ s ∧
    stripAndKey (composeAndKey true true ((1 * 10000 + 2) % 100000000) s) =
      (true, true, 1, 2, s) := by
  have hm : (1 * 10000 + 2) % 100000000 = 10002 := by norm_num
  constructor
  · rw [hm]
    unfold composeAndKey
    simp [List.append_assoc]
  · rw [hm]
    exact stripAndKey_composeAndKey true true 1 2 s (by omega) (by omega) h1 h2 h3

/-- witness for C7 on the one-letter bare key A. -/
theorem C7_and_key_markers_witness :
    pyStartsWith [65] caretMark = false ∧ pyStartsWith [65] cMark = false ∧
    durMarked [65] = false ∧
    stripAndKey (composeAndKey true true ((1 * 10000 + 2) % 100000000) [65]) =
      (true, true, 1, 2, [65]) :=
  ⟨by decide, by decide, by decide,
   (C7_and_key_markers [65] (by decide) (by decide) (by decide)).2⟩

/-- C8 (corrected): the ReserveData writer emits four reserved slots — a zero
byte, an empty string and two zero ints — and the reader consumes and
discards all four, returning the record whatever the reserved slots hold. -/
theorem C8_reserved_fields (v : ReserveData) (rb : Nat) (rs : PyStr) (r1 r2 : Int)
    (hwf : wfReserveData v) (hrb : rb < 256) (hrs : wfStr rs)
    (hr1a : -2147483648 ≤ r1) (hr1b : r1 < 2147483648)
    (hr2a : -2147483648 ≤ r2) (hr2b : r2 < 2147483648)
    (hlen : (encReserveDataRes v rb rs r1 r2).length ≤ 2147483647) :
    writeReserveData [] v = encReserveDataRes v 0 [] 0 0 ∧
    readReserveData (encReserveDataRes v rb rs r1 r2) 0
        (encReserveDataRes v rb rs r1 r2).length =
      .ok (v, (encReserveDataRes v rb rs r1 r2).length) := by
  constructor
  · rw [writeReserveData_eq, List.nil_append]
    rfl
  · have h := readReserveData_res_seg hwf hrb hrs hr1a hr1b hr2a hr2b hlen
      (SegAt_self (encReserveDataRes v rb rs r1 r2))
      (show 0 + (encReserveDataRes v rb rs r1 r2).length ≤
        (encReserveDataRes v rb rs r1 r2).length by omega)
    simpa using h

set_option maxRecDepth 10000 in
/-- witness for C8 with nonzero contents in all four reserved slots. -/
theorem C8_reserved_fields_witness :
    wfReserveData rdZero ∧
    readReserveData (encReserveDataRes rdZero 7 [65] 3 4) 0
        (encReserveDataRes rdZero 7 [65] 3 4).length =
      .ok (rdZero, (encReserveDataRes rdZero 7 [65] 3 4).length) :=
  ⟨by decide, (C8_reserved_fields rdZero 7 [65] 3 4 (by decide) (by decide) (by decide)
    (by decide) (by decide) (by decide) (by decide) (by decide)).2⟩

set_option maxRecDepth 10000 in
/-- counterexample to C8 as stated: the writer's output is not the
three-reserved-slot layout the claim describes, and the reader fails on that
layout because it consumes a fourth reserved field. -/
theorem C8_reserved_fields_cex :
    writeReserveData [] rdZero ≠ encReserveDataSpec3 rdZero ∧
    readReserveData (encReserveDataSpec3 rdZero) 0 (encReserveDataSpec3 rdZero).length ≠
      .ok (rdZero, (encReserveDataSpec3 rdZero).length) := by
  decide

/-- C9: with 16 bytes available the SYSTEMTIME reader always advances the
cursor by exactly 16, returns the epoch sentinel 1970-01-01 09:00 (+09:00)
instead of raising when the fields are out of range (for example month 0),
otherwise returns the datetime built from the six fields, and the
day-of-week bytes at offsets 4 and 5 never influence the result. -/
theorem C9_system_time_reader (buf : List Nat) (pos size : Nat)
    (hsz : pos + 16 ≤ size) :
    readSystemTime buf pos size =
      .ok ((if validDateTime (sysFieldsAt buf pos) then sysFieldsAt buf pos
          else UNIX_EPOCH), pos + 16) ∧
    UNIX_EPOCH = ⟨1970, 1, 1, 9, 0, 0⟩ ∧
    (byteAt buf (pos + 2) + byteAt buf (pos + 3) * 256 = 0 →
      readSystemTime buf pos size = .ok (UNIX_EPOCH, pos + 16)) ∧
    (∀ buf2 : List Nat,
      (∀ i : Nat, i ≠ pos + 4 → i ≠ pos + 5 → byteAt buf2 i = byteAt buf i) →
      sysFieldsAt buf2 pos = sysFieldsAt buf pos) := by
  refine ⟨?_, rfl, ?_, ?_⟩
  · unfold readSystemTime
    rw [if_neg (by omega)]
  · intro hm
    have hnv : ¬ validDateTime (sysFieldsAt buf pos) := by
      intro hvd
      have h1m := hvd.2.2.1
      have he : (sysFieldsAt buf pos).month =
          byteAt buf (pos + 2) + byteAt buf (pos + 3) * 256 := rfl
      omega
    unfold readSystemTime
    rw [if_neg (by omega), if_neg hnv]
  · intro buf2 hb
    unfold sysFieldsAt
    rw [hb pos (by omega) (by omega), hb (pos + 1) (by omega) (by omega),
      hb (pos + 2) (by omega) (by omega), hb (pos + 3) (by omega) (by omega),
      hb (pos + 6) (by omega) (by omega), hb (pos + 7) (by omega) (by omega),
      hb (pos + 8) (by omega) (by omega), hb (pos + 9) (by omega) (by omega),
      hb (pos + 10) (by omega) (by omega), hb (pos + 11) (by omega) (by omega),
      hb (pos + 12) (by omega) (by omega), hb (pos + 13) (by omega) (by omega)]

/-- witness for C9 on an all-zero SYSTEMTIME (month 0): the epoch sentinel,
cursor advanced to 16. -/
theorem C9_system_time_reader_witness :
    0 + 16 ≤ 16 ∧
    readSystemTime (List.replicate 16 0) 0 16 = .ok (UNIX_EPOCH, 0 + 16) :=
  ⟨by omega,
   (C9_system_time_reader (List.replicate 16 0) 0 16 (by omega)).2.2.1 (by decide)⟩

/-- C10: the logo INI scan stops at the first line whose trimmed, uppercased
key equals the 04X-04X target; when that line's value does not parse as an
integer the function returns -1, whatever the later lines hold. -/
theorem C10_first_key_match_stops (s : PyStr) (onid sid : Nat) (line : PyStr)
    (rest : List PyStr) (k v1 : PyStr)
    (hl : pySplitlines s = line :: rest)
    (hkv : pySplitOnce 61 line = some (k, v1))
    (hk : asciiUpper (pyStrip k) = hex4 onid ++ hex4 sid)
    (hv : pyParseInt (pyStrip v1) = none) :
    getLogoIDFromLogoDataIni s onid sid = -1 := by
  unfold getLogoIDFromLogoDataIni
  rw [hl]
  exact logoIdScan_stop _ _ _ _ _ hkv hk hv

/-- witness for C10: key 0001000A with value x on the first line, the same
key with value 5 on the second; the function returns -1 although the second
line alone would give 5. -/
theorem C10_first_key_match_stops_witness :
    pySplitlines sC10 = [lineA, lineB] ∧
    getLogoIDFromLogoDataIni sC10 1 10 = -1 ∧
    logoIdScan (hex4 1 ++ hex4 10) [lineB] = 5 :=
  ⟨by simp [sC10, lineA, lineB, keyC10, pySplitlines, splitlinesGo, isLineBreakChar],
   C10_first_key_match_stops sC10 1 10 lineA [lineB] keyC10 [120]
     (by simp [sC10, lineA, lineB, keyC10, pySplitlines, splitlinesGo, isLineBreakChar])
     (by decide)
     (by simp [asciiUpper, pyStrip, pyIsSpace, keyC10, hex4, hexDigits])
     (by decide),
   by simp [logoIdScan, lineB, keyC10, pySplitOnce, pyStrip, pyIsSpace, asciiUpper,
     pyParseInt, isDigitChar, parseDigitsGo, hex4, hexDigits]⟩

end Edcb
